import Mathlib

/-!
Verification of the command interpretation and dispatch pipeline of the
Jarvis assistant repository (`jarvis_assistant`).  The Python sources are
shallowly embedded: pure string/path manipulation is translated directly,
state and side effects of external collaborators (filesystem agent, media
controller, brightness/volume backends, the LLM completion service) are
modelled as explicit function parameters, and Python exceptions are
modelled with `Except`.  Platform dependent code (`os.name`, `os.sep`,
`os.path`) is embedded at its POSIX instantiation (`os.name = "posix"`,
`os.sep = "/"`), matching the path examples used throughout the spec.
-/

namespace Jarvis

/-- JSON values, as produced by the external `json.loads` of the Python
standard library.  `Json.null` also stands for the Python value `None`
(the two are the same object in the source language).  Integral and
floating numbers are kept apart, as Python does. -/
inductive Json where
  | null : Json
  | bool (b : Bool) : Json
  | intNum (n : Int) : Json
  | floatNum (q : Rat) : Json
  | str (s : String) : Json
  | arr (items : List Json) : Json
  | obj (fields : List (String × Json)) : Json

/-- Python errors that the embedded code can raise.  Only the constructor
is significant for control flow (Python `except` clauses select on it). -/
inductive PyErr where
  | typeError (msg : String) : PyErr
  | valueError (msg : String) : PyErr
  | attributeError (msg : String) : PyErr
  deriving DecidableEq, Repr

/-- Executable infix test on character lists. -/
def listInfix (pat : List Char) : List Char → Bool
  | [] => pat.isEmpty
  | c :: t => pat.isPrefixOf (c :: t) || listInfix pat t

/-- Substring test, Python `needle in s` for strings. -/
def strContains (s needle : String) : Bool :=
  listInfix needle.toList s.toList

/-- Python `str.startswith`, evaluated on the character lists. -/
def strStartsWith (s p : String) : Bool :=
  p.toList.isPrefixOf s.toList

/-- Python `str.endswith`, evaluated on the character lists. -/
def strEndsWith (s p : String) : Bool :=
  p.toList.isSuffixOf s.toList

/-- Python truthiness of a JSON/Python value (`if x:`). -/
def pyTruthy : Json → Bool
  | .null => false
  | .bool b => b
  | .intNum n => n ≠ 0
  | .floatNum q => q ≠ 0
  | .str s => s ≠ ""
  | .arr items => !items.isEmpty
  | .obj fields => !fields.isEmpty

/-- Last-wins lookup in an association list (Python dicts built by
`json.loads` keep the last duplicate key; our decoder inserts with
replacement so lists are duplicate-free, making this a plain lookup). -/
def lookupLast (kvs : List (String × Json)) (k : String) : Option Json :=
  match kvs with
  | [] => none
  | (k', v) :: rest =>
      match lookupLast rest k with
      | some r => some r
      | none => if k' = k then some v else none

/-- Python `d.get(k, default)`; raises `AttributeError` when the receiver
is not a dict. -/
def pyDictGet (v : Json) (k : String) (default : Json) : Except PyErr Json :=
  match v with
  | .obj kvs => .ok ((lookupLast kvs k).getD default)
  | _ => .error (.attributeError "object has no attribute get")

/-- Python membership `needle in v` for a decoded JSON value: key lookup
for objects, element equality for arrays, substring for strings, and a
`TypeError` for non-container values. -/
def pyContains (v : Json) (needle : String) : Except PyErr Bool :=
  match v with
  | .obj kvs => .ok (kvs.any fun kv => kv.1 = needle)
  | .arr items =>
      -- Python compares each element with the string `needle`; only a
      -- string element can compare equal.
      .ok (items.any fun item =>
        match item with
        | .str s => s = needle
        | _ => false)
  | .str s => .ok (strContains s needle)
  | .null => .error (.typeError "argument of type NoneType is not iterable")
  | .bool _ => .error (.typeError "argument of type bool is not iterable")
  | .intNum _ => .error (.typeError "argument of type int is not iterable")
  | .floatNum _ => .error (.typeError "argument of type float is not iterable")

/-- Field lookup on a decoded JSON value; `none` when the value is not an
object or the key is absent. -/
def jsonGetField (v : Json) (k : String) : Option Json :=
  match v with
  | .obj kvs => lookupLast kvs k
  | _ => none

/-! A JSON decoder modelling the external `json.loads`

The Python source delegates decoding to the standard library.  The
decoder below reproduces its observable behaviour on the inputs of
interest: strict JSON values, `json.loads` whitespace (space, tab, CR,
LF), rejection of trailing data and of the empty input, and last-wins
duplicate object keys. -/

def jsonWs (c : Char) : Bool :=
  c = ' ' ∨ c = '\t' ∨ c = '\n' ∨ c = '\r'

def skipWs : List Char → List Char
  | [] => []
  | c :: rest => if jsonWs c then skipWs rest else c :: rest

def isDigitCh (c : Char) : Bool := '0' ≤ c ∧ c ≤ '9'

def digitVal (c : Char) : Nat := c.toNat - '0'.toNat

def readDigits : List Char → (List Nat × List Char)
  | [] => ([], [])
  | c :: rest =>
      if isDigitCh c then
        let (ds, rem) := readDigits rest
        (digitVal c :: ds, rem)
      else ([], c :: rest)

def digitsToNat (ds : List Nat) : Nat :=
  ds.foldl (fun acc d => acc * 10 + d) 0

def hexVal (c : Char) : Option Nat :=
  if isDigitCh c then some (digitVal c)
  else if 'a' ≤ c ∧ c ≤ 'f' then some (c.toNat - 'a'.toNat + 10)
  else if 'A' ≤ c ∧ c ≤ 'F' then some (c.toNat - 'A'.toNat + 10)
  else none

/-- Translation of a simple (non-`\u`) escape character. -/
def escCh (e : Char) : Option Char :=
  if e = '"' then some '"'
  else if e = '\\' then some '\\'
  else if e = '/' then some '/'
  else if e = 'n' then some '\n'
  else if e = 't' then some '\t'
  else if e = 'r' then some '\r'
  else if e = 'b' then some (Char.ofNat 8)
  else if e = 'f' then some (Char.ofNat 12)
  else none

/-- Read the body of a JSON string literal after the opening quote,
handling the standard escape sequences. -/
def readStrBody : List Char → Option (List Char × List Char)
  | [] => none
  | '"' :: rest => some ([], rest)
  | '\\' :: 'u' :: h1 :: h2 :: h3 :: h4 :: rem =>
      (match hexVal h1, hexVal h2, hexVal h3, hexVal h4 with
       | some a, some b, some c, some d =>
           match readStrBody rem with
           | some (body, rem') =>
               some (Char.ofNat (((a * 16 + b) * 16 + c) * 16 + d) :: body, rem')
           | none => none
       | _, _, _, _ => none)
  | '\\' :: e :: rest =>
      (match escCh e with
       | some c =>
           match readStrBody rest with
           | some (body, rem) => some (c :: body, rem)
           | none => none
       | none => none)
  | c :: rest =>
      match readStrBody rest with
      | some (body, rem) => some (c :: body, rem)
      | none => none

/-- Read an optional exponent part.  Returns the exponent, whether an
exponent was present, and the rest; `none` on a malformed exponent. -/
def readExpAfterE (r : List Char) : Option (Int × Bool × List Char) :=
  match r with
  | '+' :: r2 =>
      let (ds, rem) := readDigits r2
      if ds.isEmpty then none else some (Int.ofNat (digitsToNat ds), true, rem)
  | '-' :: r2 =>
      let (ds, rem) := readDigits r2
      if ds.isEmpty then none else some (-(Int.ofNat (digitsToNat ds)), true, rem)
  | _ =>
      let (ds, rem) := readDigits r
      if ds.isEmpty then none else some (Int.ofNat (digitsToNat ds), true, rem)

def readExp (input : List Char) : Option (Int × Bool × List Char) :=
  match input with
  | 'e' :: r => readExpAfterE r
  | 'E' :: r => readExpAfterE r
  | _ => some (0, false, input)

/-- Assemble a parsed JSON number. -/
def mkNumber (neg : Bool) (intPart : Nat) (fracDs : List Nat) (isFloat : Bool)
    (expv : Int) : Json :=
  if isFloat then
    let mantissa : Rat :=
      (intPart : Rat) + (digitsToNat fracDs : Rat) / ((10 : Rat) ^ fracDs.length)
    let magnitude : Rat := mantissa * (10 : Rat) ^ expv
    .floatNum (if neg then -magnitude else magnitude)
  else
    .intNum (if neg then -(Int.ofNat intPart) else Int.ofNat intPart)

/-- Parse a JSON number after an optional leading minus sign has been
consumed.  Returns the value (integral or floating) and the rest. -/
def readNumber (neg : Bool) (input : List Char) : Option (Json × List Char) :=
  let (intDs, rest1) := readDigits input
  if intDs.isEmpty then none
  else
    match rest1 with
    | '.' :: r =>
        let (fracDs, rest2) := readDigits r
        if fracDs.isEmpty then none
        else
          match readExp rest2 with
          | none => none
          | some (ev, _, rest3) =>
              some (mkNumber neg (digitsToNat intDs) fracDs true ev, rest3)
    | _ =>
        match readExp rest1 with
        | none => none
        | some (ev, hasExp, rest3) =>
            some (mkNumber neg (digitsToNat intDs) [] hasExp ev, rest3)

/-- Insert a key into an object's field list, replacing an existing
binding (Python dict semantics: last duplicate key wins). -/
def insertKV (kvs : List (String × Json)) (k : String) (v : Json) : List (String × Json) :=
  match kvs with
  | [] => [(k, v)]
  | (k', v') :: rest => if k' = k then (k, v) :: rest else (k', v') :: insertKV rest k v

mutual

/-- Parse one JSON value; fuel bounds the recursion depth. -/
def parseVal (fuel : Nat) (input : List Char) : Option (Json × List Char) :=
  match fuel with
  | 0 => none
  | fuel + 1 =>
      match skipWs input with
      | [] => none
      | c :: rest =>
          if c = 'n' then
            match c :: rest with
            | 'n' :: 'u' :: 'l' :: 'l' :: rem => some (.null, rem)
            | _ => none
          else if c = 't' then
            match c :: rest with
            | 't' :: 'r' :: 'u' :: 'e' :: rem => some (.bool true, rem)
            | _ => none
          else if c = 'f' then
            match c :: rest with
            | 'f' :: 'a' :: 'l' :: 's' :: 'e' :: rem => some (.bool false, rem)
            | _ => none
          else if c = '"' then
            match readStrBody rest with
            | some (body, rem) => some (.str (String.mk body), rem)
            | none => none
          else if c = '-' then readNumber true rest
          else if isDigitCh c then readNumber false (c :: rest)
          else if c = '[' then
            match skipWs rest with
            | ']' :: rem => some (.arr [], rem)
            | other => parseItems fuel other []
          else if c = '\x7b' then
            match skipWs rest with
            | '\x7d' :: rem => some (.obj [], rem)
            | other => parseFields fuel other []
          else none

/-- Parse the remaining comma-separated items of a non-empty array. -/
def parseItems (fuel : Nat) (input : List Char) (acc : List Json) :
    Option (Json × List Char) :=
  match fuel with
  | 0 => none
  | fuel + 1 =>
      match parseVal fuel input with
      | none => none
      | some (v, rest) =>
          match skipWs rest with
          | ',' :: rem => parseItems fuel rem (acc ++ [v])
          | ']' :: rem => some (.arr (acc ++ [v]), rem)
          | _ => none

/-- Parse the remaining `"key": value` fields of a non-empty object. -/
def parseFields (fuel : Nat) (input : List Char) (acc : List (String × Json)) :
    Option (Json × List Char) :=
  match fuel with
  | 0 => none
  | fuel + 1 =>
      match skipWs input with
      | '"' :: rest =>
          match readStrBody rest with
          | none => none
          | some (keyChars, rest2) =>
              match skipWs rest2 with
              | ':' :: rest3 =>
                  match parseVal fuel rest3 with
                  | none => none
                  | some (v, rest4) =>
                      let acc' := insertKV acc (String.mk keyChars) v
                      match skipWs rest4 with
                      | ',' :: rem => parseFields fuel rem acc'
                      | '\x7d' :: rem => some (.obj acc', rem)
                      | _ => none
              | _ => none
      | _ => none

end

/-- The external `json.loads`: decode a full JSON document, rejecting
trailing non-whitespace data (and hence the empty input). -/
def jsonDecode (s : String) : Option Json :=
  match parseVal (s.length + 1) s.toList with
  | none => none
  | some (v, rest) => if skipWs rest = [] then some v else none

/-! `CommandParser.parse_command`
(`jarvis_assistant/core/command_parser.py`, lines 106-150)

The LLM call itself is the external completion service; `parse_command`
below is the processing of its raw text output (`response.text`).  The
`try` block body is `parseAttempt`; the surrounding `except` clauses are
`parse_command`. -/

/-- Python `str.strip()` (whitespace; the ASCII whitespace of the
fenced-output format). -/
def pyStrip (s : String) : String :=
  String.mk (((s.toList.dropWhile Char.isWhitespace).reverse.dropWhile Char.isWhitespace).reverse)

/-- The fence-stripping step of `parse_command` (lines 128-133):
`strip`, drop a leading ` ```json `, drop a trailing ` ``` `, `strip`. -/
def stripFences (raw : String) : String :=
  let cleaned := pyStrip raw
  let cleaned :=
    if strStartsWith cleaned "```json" then String.mk (cleaned.toList.drop 7) else cleaned
  let cleaned :=
    if strEndsWith cleaned "```" then
      String.mk (cleaned.toList.take (cleaned.toList.length - 3))
    else cleaned
  pyStrip cleaned

/-- The membership verification of line 138, with Python's short-circuit
evaluation of `"intent" not in parsed_json or "entities" not in
parsed_json`: `.ok true` when both tests pass, `.ok false` when one
fails, `.error` when the membership test itself raises. -/
def checkKeys (parsed : Json) : Except PyErr Bool := do
  let hasIntent ← pyContains parsed "intent"
  if !hasIntent then
    return false
  else
    let hasEntities ← pyContains parsed "entities"
    return hasEntities

/-- The result dict of the `json.JSONDecodeError` handler (line 147). -/
def decodeFailResult (raw : String) : Json :=
  .obj [("intent", .str "unknown"),
        ("entities", .obj [("error", .str "LLM response was not valid JSON."),
                           ("raw_response", .str raw)])]

/-- The result dict of line 140 (missing `intent`/`entities`). -/
def malformedResult : Json :=
  .obj [("intent", .str "unknown"),
        ("entities", .obj [("error", .str "Malformed JSON structure from LLM.")])]

/-- The result dict of the generic `except Exception` handler (line 150). -/
def genericFailResult (msg : String) : Json :=
  .obj [("intent", .str "unknown"),
        ("entities", .obj [("error", .str ("An unexpected error occurred: " ++ msg))])]

/-- Message text carried by a Python error value (`str(e)`). -/
def pyErrMsg : PyErr → String
  | .typeError m => m
  | .valueError m => m
  | .attributeError m => m

/-- Everything that can raise inside the `try` of `parse_command`:
decode failures are distinguished from other exceptions because the
source has a dedicated `except json.JSONDecodeError` clause. -/
inductive ParseRaise where
  | decodeError : ParseRaise
  | pyError (e : PyErr) : ParseRaise

/-- The `try` block body of `parse_command` (lines 128-143), with every
exception propagating. -/
def parseAttempt (raw : String) : Except ParseRaise Json :=
  let cleaned := stripFences raw
  match jsonDecode cleaned with
  | none => .error .decodeError
  | some parsed =>
      match checkKeys parsed with
      | .error e => .error (.pyError e)
      | .ok false => .ok malformedResult
      | .ok true => .ok parsed

/-- The function `CommandParser.parse_command`: the `try` block together with its
`except` handlers.  Total: every exception of the body is converted into
a returned dict. -/
def parse_command (raw : String) : Json :=
  match parseAttempt raw with
  | .ok j => j
  | .error .decodeError => decodeFailResult raw
  | .error (.pyError e) => genericFailResult (pyErrMsg e)

/-! POSIX path helpers (`os.path` at `os.name = "posix"`, `os.sep = "/"`) -/

/-- Python `s.strip(c)` for a single strip character. -/
def pyStripChar (c : Char) (s : String) : String :=
  String.mk (((s.toList.dropWhile (· = c)).reverse.dropWhile (· = c)).reverse)

/-- Python `s.rstrip(c)` for a single strip character. -/
def pyRStripChar (c : Char) (s : String) : String :=
  String.mk ((s.toList.reverse.dropWhile (· = c)).reverse)

/-- The test `os.path.isabs` on POSIX. -/
def isAbs (p : String) : Bool := strStartsWith p "/"

/-- Python `s.split(sep)` for a one-character separator, on character
lists (`[].split` of the empty string yields one empty piece, matching
Python). -/
def splitCharAux (sep : Char) (cur : List Char) : List Char → List (List Char)
  | [] => [cur.reverse]
  | c :: t => if c = sep then cur.reverse :: splitCharAux sep [] t else splitCharAux sep (c :: cur) t

/-- Python `s.split(sep)` for a one-character separator. -/
def pySplitChar (sep : Char) (s : String) : List String :=
  (splitCharAux sep [] s.toList).map String.mk

/-- One step of `posixpath.normpath`'s component loop. -/
def normStep (initialSlashes : Nat) (acc : List String) (comp : String) : List String :=
  if comp = "" ∨ comp = "." then acc
  else if comp ≠ ".." ∨ (initialSlashes = 0 ∧ acc = []) ∨ acc.getLast? = some ".." then
    acc ++ [comp]
  else if acc ≠ [] then acc.dropLast
  else acc

/-- Join non-empty path components with a separator character. -/
def joinChar (sep : Char) : List String → List Char
  | [] => []
  | [a] => a.toList
  | a :: b :: rest => a.toList ++ sep :: joinChar sep (b :: rest)

/-- The function `os.path.normpath` on POSIX (`posixpath.normpath`). -/
def posix_normpath (path : String) : String :=
  if path = "" then "."
  else
    let initialSlashes : Nat :=
      if strStartsWith path "/" then
        if strStartsWith path "//" ∧ ¬ strStartsWith path "///" then 2 else 1
      else 0
    let newComps := (pySplitChar '/' path).foldl (normStep initialSlashes) []
    let result := List.replicate initialSlashes '/' ++ joinChar '/' newComps
    if result = [] then "." else String.mk result

/-- The function `os.path.dirname` on POSIX. -/
def posix_dirname (p : String) : String :=
  let cs := p.toList
  let head := (cs.reverse.dropWhile (fun c => c ≠ '/')).reverse
  if head ≠ [] ∧ head.any (fun c => c ≠ '/') then
    String.mk ((head.reverse.dropWhile (fun c => c = '/')).reverse)
  else String.mk head

/-- The function `os.path.basename` on POSIX. -/
def posix_basename (p : String) : String :=
  String.mk ((p.toList.reverse.takeWhile (fun c => c ≠ '/')).reverse)

/-- The function `os.path.join` on POSIX, two arguments. -/
def posix_join (a b : String) : String :=
  if strStartsWith b "/" then b
  else if a = "" ∨ strEndsWith a "/" then a ++ b
  else a ++ "/" ++ b

/-- The function `os.path.expanduser` on POSIX, with the `HOME` environment value as
an explicit parameter.  A leading `~` alone or followed by `/` expands
to `HOME` (right-stripped of separators, falling back to `/` when the
result is empty, as CPython does); an unknown `~user` form is returned
unchanged, as CPython does when the user is not found. -/
def posix_expanduser (home : String) (p : String) : String :=
  match p.toList with
  | '~' :: rest =>
      if rest = [] ∨ rest.head? = some '/' then
        let r := pyRStripChar '/' home ++ String.mk rest
        if r = "" then "/" else r
      else p
  | _ => p

/-- The root-directory test used by `handle_os_interaction` for
`create_file` (main.py lines 41-50 and 100-102), POSIX instantiation:
`os.path.splitdrive` yields no drive, so the test is "starts with the
separator and has exactly one component once separators are stripped". -/
def isRootPathAttempt (path_obj : String) : Bool :=
  strStartsWith path_obj "/" ∧ (pySplitChar '/' (pyStripChar '/' path_obj)).length = 1

/-! `OSInteraction` (`jarvis_assistant/modules/os_interaction.py`)

The filesystem, subprocess and platform libraries are external
collaborators; the string logic of the module is embedded directly. -/

/-- Python `str.capitalize`: first character upper-cased, the rest
lower-cased. -/
def pyCapitalize (s : String) : String :=
  match s.toList with
  | [] => ""
  | c :: rest => String.mk (c.toUpper :: rest.map Char.toLower)

/-- The extension-defaulting logic of `OSInteraction.create_file`
(os_interaction.py lines 101-115): the path that is actually written. -/
def actual_filepath (filepath file_type : String) : String :=
  if file_type = "document" then
    if ¬ (strEndsWith filepath ".txt" ∨ strEndsWith filepath ".md" ∨
          strEndsWith filepath ".rtf") then
      filepath ++ ".txt"
    else filepath
  else if file_type = "spreadsheet" then
    if ¬ (strEndsWith filepath ".csv" ∨ strEndsWith filepath ".tsv") then filepath ++ ".csv"
    else filepath
  else
    if ¬ (posix_basename filepath).toList.contains '.' then filepath ++ ".txt"
    else filepath

/-- The success message of `OSInteraction.create_file` (lines 120-122):
built after a successful write of `actual_filepath`. -/
def create_file_success_message (filepath file_type : String) : String :=
  let actual := actual_filepath filepath file_type
  let message := pyCapitalize file_type ++ " file created: " ++ actual
  if actual ≠ filepath then message ++ " (requested as " ++ filepath ++ ")"
  else message

/-- The method `OSInteraction.set_volume` (os_interaction.py lines 228-290).  The
range check precedes every platform branch; the platform-specific
volume-setting mechanism (pycaw / amixer / osascript) is the external
collaborator `backend`. -/
def set_volume (backend : Rat → Bool × String) (level : Rat) : Bool × String :=
  if ¬ (0 ≤ level ∧ level ≤ 1) then
    (false, "Volume level must be between 0.0 and 1.0.")
  else backend level

/-- The method `OSInteraction.set_brightness` (os_interaction.py lines 210-226).
There is no range check: the level is handed straight to the external
`screen_brightness_control` library, modelled by `sbcSet` (with
`sbcAvailable` standing for a successful import).  `sbcSet` returns
`Except`: `.error` models an exception from the library, caught by the
generic handler. -/
def set_brightness (sbcAvailable : Bool) (sbcSet : Int → Except String Unit)
    (level : Int) : Bool × String :=
  if ¬ sbcAvailable then
    (false, "screen_brightness_control library not found. Cannot set brightness.")
  else
    match sbcSet level with
    | .ok _ => (true, "Brightness set to " ++ toString level ++ "%")
    | .error e => (false, "Error setting brightness: " ++ e)

/-! Python value coercions used by `handle_os_interaction` -/

/-- Python `int(<str>)`: optional surrounding whitespace, optional sign,
a non-empty digit run.  Anything else raises `ValueError`. -/
def parseIntStr (s : String) : Option Int :=
  let cs := (s.toList.dropWhile Char.isWhitespace).reverse.dropWhile Char.isWhitespace
  let cs := cs.reverse
  let (neg, ds) :=
    match cs with
    | '-' :: rest => (true, rest)
    | '+' :: rest => (false, rest)
    | _ => (false, cs)
  if ds ≠ [] ∧ ds.all isDigitCh then
    some (if neg then -(Int.ofNat (digitsToNat (ds.map digitVal)))
          else Int.ofNat (digitsToNat (ds.map digitVal)))
  else none

/-- Python `float(<str>)` on the common decimal forms
(`[sign] digits [. digits] [e [sign] digits]`, at least one digit). -/
def parseFloatStr (s : String) : Option Rat :=
  let cs := (s.toList.dropWhile Char.isWhitespace).reverse.dropWhile Char.isWhitespace
  let cs := cs.reverse
  let (neg, cs2) :=
    match cs with
    | '-' :: rest => (true, rest)
    | '+' :: rest => (false, rest)
    | _ => (false, cs)
  let (intDs, rest1) := readDigits cs2
  let (fracDs, rest2) :=
    match rest1 with
    | '.' :: r => readDigits r
    | _ => ([], rest1)
  if intDs = [] ∧ fracDs = [] then none
  else
    match readExp rest2 with
    | some (ev, _, []) =>
        let mantissa : Rat :=
          (digitsToNat intDs : Rat) + (digitsToNat fracDs : Rat) / ((10 : Rat) ^ fracDs.length)
        let magnitude := mantissa * (10 : Rat) ^ ev
        some (if neg then -magnitude else magnitude)
    | _ => none

/-- Rational truncation toward zero, Python `int(<float>)`. -/
def ratTrunc (q : Rat) : Int := if 0 ≤ q then q.floor else q.ceil

/-- Python `int(x)` on a JSON/Python value: only `ValueError` is caught
by the source, `TypeError` propagates. -/
def pyIntCoerce : Json → Except PyErr Int
  | .intNum n => .ok n
  | .floatNum q => .ok (ratTrunc q)
  | .bool b => .ok (if b then 1 else 0)
  | .str s =>
      match parseIntStr s with
      | some n => .ok n
      | none => .error (.valueError "invalid literal for int() with base 10")
  | _ => .error (.typeError "int() argument must be a string or a number")

/-- Python `float(x)` on a JSON/Python value. -/
def pyFloatCoerce : Json → Except PyErr Rat
  | .intNum n => .ok n
  | .floatNum q => .ok q
  | .bool b => .ok (if b then 1 else 0)
  | .str s =>
      match parseFloatStr s with
      | some q => .ok q
      | none => .error (.valueError "could not convert string to float")
  | _ => .error (.typeError "float() argument must be a string or a number")

/-- Extraction of the string payload of a value about to be used where
the source requires `str` (e.g. as an `os.path` argument).  A non-string
value makes the corresponding library call raise; the precise Python
error class (TypeError/AttributeError) is collapsed to `typeError`. -/
def asPyStr : Json → Except PyErr String
  | .str s => .ok s
  | _ => .error (.typeError "expected a str value")

/-- Python `v[k]` for a string key. -/
def pyGetItem (v : Json) (k : String) : Except PyErr Json :=
  match v with
  | .obj kvs =>
      match lookupLast kvs k with
      | some x => .ok x
      | none => .error (.valueError ("KeyError: " ++ k))
  | _ => .error (.typeError "value is not subscriptable by a str key")

/-- Rendering of a value inside a Python f-string (`str(x)`).  The
container cases are abbreviated: no claim depends on their exact text. -/
def pyStrOf : Json → String
  | .null => "None"
  | .bool true => "True"
  | .bool false => "False"
  | .intNum n => toString n
  | .floatNum q => toString q
  | .str s => s
  | .arr _ => "[...]"
  | .obj _ => "\x7b...\x7d"

/-! Capability providers (external collaborators of `main.py`)

Each provider function is a parameter with the call signature the source
uses.  Arguments that `main.py` passes through unconverted keep the
`Json` type (they can be any decoded value); paths that `main.py` itself
normalizes arrive as `String`. -/

structure OSAgent where
  create_file : String → Json → Json → Bool × String
  create_directory : String → Bool × String
  delete_path : String → Bool × String
  move_path : String → String → Bool × String
  list_directory_contents : String → Bool × (String ⊕ List String)
  execute_command : String → String → Bool × String
  set_brightness : Int → Bool × String
  set_volume : Rat → Bool × String
  read_file_content : String → Bool × String

structure AppAgent where
  open_app : Json → Bool
  close_app : Json → Bool
  app_map_keys : List String

structure MediaAgent where
  play : Json → Json → Bool × String
  pause : Json → Bool × String
  skip_track : Json → Bool × String
  previous_track : Json → Bool × String

structure WebAgent where
  open_website : Json → Bool
  search_info : Json → Json → String

/-! `handle_os_interaction` (`jarvis_assistant/main.py`, lines 16-205)

POSIX instantiation (`os.name != "nt"`, `os.sep = "/"`); `home` is the
`HOME` value consulted by `os.path.expanduser`.  The initial default
`response_message` of line 18 is overwritten on every path that returns,
so it does not appear. -/

def rootRejectMessage1 (path_obj : String) : String :=
  "Creating files directly in the root directory (\x27" ++ posix_dirname path_obj ++
  "\x27) is often restricted. Please try specifying a path within your user folders (e.g., \x27Documents/my_file.txt\x27 or \x27my_file.txt\x27 to save in your home directory)."

def rootRejectMessage2 (filepath : String) : String :=
  "Creating files directly in a root directory like \x27" ++
  posix_dirname (posix_normpath filepath) ++
  "\x27 is often restricted due to permissions. Please try a path in your user folders, like \x27Documents/my_file.txt\x27, or just a filename to save in your home directory."

/-- Resolution of a path entity relative to the home directory:
`os.path.expanduser(os.path.join("~", p))`. -/
def homeResolve (home p : String) : String :=
  posix_expanduser home (posix_join "~" p)

def osIntentNames : List String :=
  ["create_file", "create_directory", "delete_path", "move_path",
   "list_directory_contents", "execute_command", "set_brightness", "set_volume"]

def handle_os_interaction (home : String) (os_agent : OSAgent) (intent : String)
    (entities : Json) : Except PyErr String :=
  if intent = "create_file" then do
    let filepath ← pyDictGet entities "filepath" .null
    let content ← pyDictGet entities "content" (.str "")
    let file_type ← pyDictGet entities "file_type" (.str "txt")
    if pyTruthy filepath then do
      let fp ← asPyStr filepath
      let path_obj := posix_normpath fp
      if isRootPathAttempt path_obj then
        pure (rootRejectMessage1 path_obj)
      else
        if isAbs fp then
          -- second root check (lines 98-107), POSIX: no drive, test on the
          -- raw filepath
          if strStartsWith fp "/" ∧ (pySplitChar '/' (pyStripChar '/' fp)).length = 1 then
            pure (rootRejectMessage2 fp)
          else
            pure (os_agent.create_file fp content file_type).2
        else
          pure (os_agent.create_file (homeResolve home fp) content file_type).2
    else
      pure "I need a filepath to create a file."
  else if intent = "create_directory" then do
    let dir_path ← pyDictGet entities "dir_path" .null
    if pyTruthy dir_path then do
      let dp ← asPyStr dir_path
      let dp := if ¬ isAbs dp then homeResolve home dp else dp
      pure (os_agent.create_directory dp).2
    else
      pure "I need a directory path to create a directory."
  else if intent = "delete_path" then do
    let path_to_delete ← pyDictGet entities "path" .null
    if pyTruthy path_to_delete then do
      let p ← asPyStr path_to_delete
      let p := if ¬ isAbs p then homeResolve home p else p
      pure (os_agent.delete_path p).2
    else
      pure "I need a path to delete."
  else if intent = "move_path" then do
    let source_path ← pyDictGet entities "source_path" .null
    let destination_path ← pyDictGet entities "destination_path" .null
    if pyTruthy source_path ∧ pyTruthy destination_path then do
      let sp ← asPyStr source_path
      let sp := if ¬ isAbs sp then homeResolve home sp else sp
      let dp ← asPyStr destination_path
      let dp := if ¬ isAbs dp then homeResolve home dp else dp
      pure (os_agent.move_path sp dp).2
    else
      pure "I need both a source and a destination path to move."
  else if intent = "list_directory_contents" then do
    let dir_path ← pyDictGet entities "dir_path" (.str "~")
    let dp ← asPyStr dir_path
    let dp :=
      if ¬ isAbs dp ∧ dp ≠ "~" then homeResolve home dp
      else if dp = "~" then posix_expanduser home "~"
      else dp
    match os_agent.list_directory_contents dp with
    | (true, .inr contents) =>
        if contents.isEmpty then pure ("The directory " ++ dp ++ " is empty.")
        else pure ("Contents of " ++ dp ++ ":\n" ++ String.intercalate "\n" contents)
    | (true, .inl s) => pure s
    | (false, .inl s) => pure s
    -- failure results are strings in the source provider; the list case
    -- is unreachable and rendered by joining
    | (false, .inr contents) => pure (String.intercalate "\n" contents)
  else if intent = "execute_command" then do
    let command_str ← pyDictGet entities "command_str" .null
    let shell_type ← pyDictGet entities "shell_type" .null
    let shell_type := if ¬ pyTruthy shell_type then Json.str "sh" else shell_type
    if pyTruthy command_str then do
      let cs ← asPyStr command_str
      let st ← asPyStr shell_type
      let (success, output) := os_agent.execute_command cs st
      if success then pure ("Command executed. Output:\n" ++ output)
      else pure ("Command failed:\n" ++ output)
    else
      pure "I need a command to execute."
  else if intent = "set_brightness" then do
    let level ← pyDictGet entities "level" .null
    match level with
    | .null => pure "I need a brightness level."
    | lv =>
        match pyIntCoerce lv with
        | .ok n => pure (os_agent.set_brightness n).2
        | .error (.valueError _) => pure "Brightness level must be an integer."
        | .error e => throw e
  else if intent = "set_volume" then do
    let level ← pyDictGet entities "level" .null
    match level with
    | .null => pure "I need a volume level."
    | lv =>
        match pyFloatCoerce lv with
        | .ok q => pure (os_agent.set_volume q).2
        | .error (.valueError _) => pure "Volume level must be a number (e.g., 0.5 for 50%)."
        | .error e => throw e
  else
    pure ("OS interaction for intent \x27" ++ intent ++ "\x27 is not yet implemented.")

/-! The command-processing step of `main_loop`
(`jarvis_assistant/main.py`, lines 298-462)

One iteration of the `while True:` loop after a text command has been
obtained.  Speech and TTS are external I/O and carry no data back into
the loop; the LLM parser is the function parameter `parser` (in the
source, `parser.parse_command`). -/

/-- Outcome of one loop iteration: `skip` when no command was received
(`else: pass`), `terminate` when the loop `break`s after speaking the
message, `respond` when the message is spoken and the loop continues,
`crash` when an exception escapes to the outer handler of `main_loop`. -/
inductive StepResult where
  | skip : StepResult
  | terminate (msg : String) : StepResult
  | respond (msg : String) : StepResult
  | crash (e : PyErr) : StepResult

/-- The intent branches following the `exit` check (lines 322-459):
every branch produces a response message; none of them breaks the
loop.  POSIX instantiation for the `os.name` tests. -/
def dispatchRest (home : String) (os_agent : OSAgent) (app_agent : AppAgent)
    (media_agent : MediaAgent) (web_agent : WebAgent) (text_command : String)
    (intent : Json) (entities : Json) : Except PyErr String :=
  match intent with
  | .str s =>
      if s ∈ osIntentNames then
        handle_os_interaction home os_agent s entities
      else if s = "open_app" then do
        let app_name ← pyDictGet entities "app_name" .null
        if pyTruthy app_name then
          if app_agent.open_app app_name then
            pure ("Opening " ++ pyStrOf app_name ++ ".")
          else
            pure ("Sorry, I couldn\x27t open \x27" ++ pyStrOf app_name ++
              "\x27. Please ensure it\x27s installed and the name is correct, or add its path to USER_APP_PATHS in the config.py file.")
        else
          pure "Which application would you like to open?"
      else if s = "close_app" then do
        let app_name ← pyDictGet entities "app_name" .null
        if pyTruthy app_name then
          if app_agent.close_app app_name then
            pure ("Attempting to close " ++ pyStrOf app_name ++ ".")
          else
            pure ("Sorry, I couldn\x27t close " ++ pyStrOf app_name ++ " or it wasn\x27t running.")
        else
          pure "Which application would you like to close?"
      else if s = "open_website" then do
        let url ← pyDictGet entities "url" .null
        if pyTruthy url then
          if web_agent.open_website url then pure ("Opening " ++ pyStrOf url ++ ".")
          else pure ("Sorry, I couldn\x27t open " ++ pyStrOf url ++ ".")
        else
          pure "Which website would you like to open?"
      else if s = "search_info" then do
        let query ← pyDictGet entities "query" .null
        let summarize ← pyDictGet entities "summarize" (.bool false)
        if pyTruthy query then
          let search_result := web_agent.search_info query summarize
          if pyTruthy summarize then
            pure ("Here\x27s what I found about " ++ pyStrOf query ++ ": " ++ search_result)
          else
            pure ("I\x27ve opened a browser tab with search results for " ++ pyStrOf query ++ ".")
        else
          pure "What would you like me to search for?"
      else if s = "media_play" then do
        let player_name ← pyDictGet entities "player_name" (.str "default")
        let track_or_playlist ← pyDictGet entities "track_or_playlist" .null
        pure (media_agent.play player_name track_or_playlist).2
      else if s = "media_pause" then do
        let player_name ← pyDictGet entities "player_name" (.str "default")
        pure (media_agent.pause player_name).2
      else if s = "media_skip" then do
        let player_name ← pyDictGet entities "player_name" (.str "default")
        pure (media_agent.skip_track player_name).2
      else if s = "media_previous" then do
        let player_name ← pyDictGet entities "player_name" (.str "default")
        pure (media_agent.previous_track player_name).2
      else if s = "general_query" then do
        let query_text ← pyDictGet entities "query_text" (.str text_command)
        let qs ← asPyStr query_text
        let query_text_lower := qs.toLower
        if strContains query_text_lower "which apps can you open" ∨
           strContains query_text_lower "what apps can you open" then
          pure ("I can try to open applications I know by default, like Notepad, Calculator, Chrome, Firefox, and a generic \x27browser\x27. Currently, my full list of recognized app names includes: " ++
            String.intercalate ", " app_agent.app_map_keys ++
            ". You can also teach me new ones by adding their full path to USER_APP_PATHS in the config.py file. What app would you like to open?")
        else if strContains query_text_lower "can you speak" ∧
                strContains query_text_lower "hebrew" then
          pure "I understand commands in English, and my responses are currently in English. Support for speaking other languages like Hebrew is not yet implemented."
        else
          pure ("Regarding your query: " ++ qs ++ "... I\x27m still learning to handle general conversation.")
      else if s = "summarize_text" then do
        let filepath ← pyDictGet entities "filepath" .null
        let source_url ← pyDictGet entities "source_url" .null
        let text_to_summarize ← pyDictGet entities "text_to_summarize" .null
        if pyTruthy filepath then do
          let fp ← asPyStr filepath
          let fp := if ¬ isAbs fp then homeResolve home fp else fp
          let (success_read, content_or_error) := os_agent.read_file_content fp
          if success_read then
            let snippet := content_or_error.take 500
            let msg := "Here\x27s the beginning of the file \x27" ++ posix_basename fp ++
              "\x27:\n" ++ snippet
            if content_or_error.length > 500 then
              pure (msg ++ "\n\n(The file is longer, I\x27ve read the first part.)")
            else pure msg
          else
            pure content_or_error
        else if pyTruthy source_url then
          pure ("I would summarize " ++ pyStrOf source_url ++
            ", but web page summarization needs to be fully connected.")
        else if pyTruthy text_to_summarize then
          pure "I would summarize the text you provided, but text summarization needs to be fully connected."
        else
          pure "I need a file path, a URL, or some text to summarize."
      else if s = "unknown" then do
        let base := "I\x27m not sure how to handle that command. Could you try rephrasing?"
        let hasError ← pyContains entities "error"
        if hasError then do
          let errVal ← pyGetItem entities "error"
          pure (base ++ " (Parser error: " ++ pyStrOf errVal ++ ")")
        else
          pure base
      else
        pure ("I understood the intent as \x27" ++ s ++
          "\x27, but I don\x27t know how to do that yet.")
  | other =>
      -- a non-string intent value matches no branch of the elif chain and
      -- reaches the final else (lines 458-459)
      pure ("I understood the intent as \x27" ++ pyStrOf other ++
        "\x27, but I don\x27t know how to do that yet.")

/-- Python `v == "<literal>"` for a string literal: only a string value
can compare equal. -/
def pyEqStr (v : Json) (s : String) : Bool :=
  match v with
  | .str x => x = s
  | _ => false

/-- Lines 311-459: intent/entities extraction, the `exit` intent check,
then the dispatch chain.  The `Bool` of the result records whether the
loop breaks (`true` only on the `exit` intent). -/
def mainBody (home : String) (os_agent : OSAgent) (app_agent : AppAgent)
    (media_agent : MediaAgent) (web_agent : WebAgent) (text_command : String)
    (parsed_action : Json) : Except PyErr (Bool × String) := do
  let intent ← pyDictGet parsed_action "intent" (.str "unknown")
  let entities ← pyDictGet parsed_action "entities" (.obj [])
  if pyEqStr intent "exit" then
    pure (true, "Goodbye!")
  else do
    let msg ← dispatchRest home os_agent app_agent media_agent web_agent
      text_command intent entities
    pure (false, msg)

/-- One iteration of `main_loop` on a received text command (lines
298-462): the empty command is skipped, the sentinel phrases break the
loop with the fixed farewell before the parser is consulted, the `exit`
intent breaks it after parsing, every other outcome responds and
continues, and an escaped exception aborts the loop via the outer
handler. -/
def mainStep (parser : String → Json) (home : String) (os_agent : OSAgent)
    (app_agent : AppAgent) (media_agent : MediaAgent) (web_agent : WebAgent)
    (text_command : String) : StepResult :=
  if text_command = "" then .skip
  else if strContains text_command "exit jarvis" ∨ strContains text_command "quit jarvis" then
    .terminate "Goodbye!"
  else
    match mainBody home os_agent app_agent media_agent web_agent text_command
        (parser text_command) with
    | .error e => .crash e
    | .ok (true, msg) => .terminate msg
    | .ok (false, msg) => .respond msg

/-! The web endpoint (`jarvis_assistant/web_server.py`, lines 94-120)

`handle_command` for `POST /command`.  `data` is the result of
`request.get_json()` (`none` when the body could not be parsed as JSON);
`parserReady` is the component check of line 104; `pipeline` is
`process_command_text`.  Modelled from the spec: `process_command_text`
is imported from `jarvis_assistant.main` but absent from the sources, so
it is kept as an arbitrary collaborator mapping the command value to the
single response text (spec section 6: one text string in, one response
string out). -/
/-- The 400 error body of `handle_command`. -/
def commandErrBody : Json :=
  .obj [("error", .str "Invalid request. \x27command\x27 field is required.")]

def handle_command (pipeline : Json → String) (parserReady : Bool)
    (data : Option Json) : Except PyErr (Json × Nat) :=
  match data with
  | none => .ok (commandErrBody, 400)
  | some d =>
      if ¬ pyTruthy d then .ok (commandErrBody, 400)
      else do
        let hasCmd ← pyContains d "command"
        if ¬ hasCmd then
          pure (commandErrBody, 400)
        else do
          let command_text ← pyGetItem d "command"
          if ¬ parserReady then
            pure (Json.obj [("response", .str "Error: Assistant components not ready.")], 500)
          else
            pure (Json.obj [("response", .str (pipeline command_text))], 200)

/-! `CommandParser._build_prompt`
(`jarvis_assistant/core/command_parser.py`, lines 32-104)

The f-string template, split at the single interpolation point
`\x7btext_command\x7d`.  Doubled braces of the Python source denote
literal braces and appear here as escapes. -/

def promptChunk1 : String :=
  "\nAnalyze the following user command and extract the primary intent and relevant entities.\nYour response MUST be a single valid JSON object. Do not include any text before or after the JSON object.\n\nThe JSON object should have two main keys: \"intent\" and \"entities\".\n\n\"intent\" should be a string from the following list (or \"unknown\" if not applicable):\n  - \"create_file\"  # Generic file creation, entities will specify type (txt, doc, sheet)\n  - \"create_directory\"\n  - \"delete_path\"\n  - \"move_path\"\n  - \"list_directory_contents\"\n  - \"execute_command\"\n  - \"set_brightness\"\n  - \"set_volume\"\n  - \"open_app\"\n  - \"close_app\"\n  - \"open_website\"\n  - \"search_info\"\n  - \"summarize_text\" # New intent for summarizing provided text or web page content\n  - \"media_play\"\n  - \"media_pause\"\n  - \"media_skip\"\n  - \"media_previous\" # Can also be \"rewind\" or \"go back\"\n  - \"fill_web_form\" # For Phase 2\n  - \"simulate_online_purchase\" # For Phase 2 (simulation only)\n  - \"general_query\" (for things like \"what time is it?\" or \"tell me a joke\")\n  - \"store_auth_info\" # For security manager interaction\n  - \"get_auth_info\" # For security manager interaction\n  - \"exit\"\n\n\"entities\" should be a JSON object containing relevant extracted information. Examples:\n"

def promptChunk2 : String :=
  "  - For \"create_file\": \x7b\"filepath\": \"path/to/file.ext\", \"content\": \"optional file content here\", \"file_type\": \"txt/document/spreadsheet\"\x7d (default file_type to \"txt\" if not clear)\n  - For \"create_directory\": \x7b\"dir_path\": \"path/to/directory\"\x7d\n  - For \"delete_path\": \x7b\"path\": \"path/to/delete\"\x7d\n  - For \"move_path\": \x7b\"source_path\": \"path/to/source\", \"destination_path\": \"path/to/destination\"\x7d\n  - For \"list_directory_contents\": \x7b\"dir_path\": \"path/to/list\"\x7d\n  - For \"execute_command\": \x7b\"command_str\": \"the command to run (can be multi-line)\", \"shell_type\": \"cmd/powershell/bash/sh/zsh\"\x7d (default shell_type appropriately by OS if not specified)\n  - For \"set_brightness\": \x7b\"level\": 75\x7d (integer 0-100, e.g., \"set brightness to 75%\", \"dim screen to 20\")\n  - For \"set_volume\": \x7b\"level\": 0.5\x7d (float 0.0-1.0, e.g. \"set volume to 50%\" means level 0.5, \"mute\" means level 0.0, \"max volume\" means 1.0)\n  - For \"open_app\": \x7b\"app_name\": \"application name or path\"\x7d\n  - For \"close_app\": \x7b\"app_name\": \"application name or process name\"\x7d\n  - For \"open_website\": \x7b\"url\": \"website_url.com (try to make it a full URL like http://...)\"\x7d\n  - For \"search_info\": \x7b\"query\": \"search query\", \"summarize\": true/false\x7d (default summarize to false; if true, the main app will call summarize_text after search)\n"

def promptChunk3 : String :=
  "  - For \"summarize_text\": \x7b\"text_to_summarize\": \"long text here\", \"source_url\": \"optional_url_if_text_is_from_webpage\"\x7d\n  - For \"media_play\": \x7b\"player_name\": \"spotify/apple music/native/default etc.\", \"track_or_playlist\": \"optional track/playlist name\"\x7d\n  - For \"media_pause\": \x7b\"player_name\": \"spotify/apple music/native/default etc.\"\x7d\n  - For \"media_skip\": \x7b\"player_name\": \"spotify/apple music/native/default etc.\"\x7d (for \"next track\")\n  - For \"media_previous\": \x7b\"player_name\": \"spotify/apple music/native/default etc.\"\x7d (for \"previous track\" or \"rewind\")\n  - For \"fill_web_form\": \x7b\"url\": \"target_url\", \"form_type_identifier\": \"e.g., generic_registration, specific_site_login\", \"data_profile_key\": \"key_for_security_manager_data\"\x7d\n  - For \"simulate_online_purchase\": \x7b\"item_description\": \"item to search for\", \"site_url\": \"optional_target_site\", \"dummy_data_profile_key\": \"key_for_security_manager_test_data\"\x7d\n  - For \"general_query\": \x7b\"query_text\": \"full user query\"\x7d\n  - For \"store_auth_info\": \x7b\"service_name\": \"service identifier\", \"username\": \"user\x27s name for the service\", \"data_to_store\": \"the sensitive data/password\"\x7d\n  - For \"get_auth_info\": \x7b\"service_name\": \"service identifier\", \"username\": \"user\x27s name for the service\"\x7d\n  - For \"exit\": \x7b\x7d\n\nGeneral Instructions for Entity Extraction:\n"

def promptChunk4 : String :=
  "- File Paths: If a user says \"my documents\" or \"desktop\", try to map these to standard user directory paths. If a path is relative, keep it relative unless easily resolvable to an absolute one. For file creation, try to infer the file extension if not explicitly given but a file type (document, spreadsheet) is mentioned.\n- Application Names: Be flexible. \"Word\" could be \"Microsoft Word\".\n- URLs: If a user says \"google.com\", convert to \"http://google.com\" or \"https://google.com\".\n- Percentages: For brightness/volume, convert \"75 percent\" or \"half\" to the numerical target format.\n- Complex Commands: For \"execute_command\", the \"command_str\" can contain newlines if the user dictates a multi-line script.\n- Summarization: If the user asks to search AND summarize, the intent should be \"search_info\" with \"summarize\": true. The main application flow will then handle getting the content and calling a \"summarize_text\" action. If the user provides text directly or points to a page to summarize, use \"summarize_text\".\n- Media Player: If no player is specified, use a sensible default like \"default\" or \"native\". \"Rewind\" can map to \"media_previous\" or a specific player\x27s rewind function if that level of detail is later supported.\n\nUser command: \""

def promptSuffix : String := "\"\n\nJSON Response:\n"

def promptPrefix : String :=
  promptChunk1 ++ promptChunk2 ++ promptChunk3 ++ promptChunk4

/-- The method `CommandParser._build_prompt`: the template with the user text
embedded at its interpolation point. -/
def build_prompt (text_command : String) : String :=
  promptPrefix ++ text_command ++ promptSuffix

/-- The intent tags actually enumerated by the source prompt. -/
def promptIntentTags : List String :=
  ["create_file", "create_directory", "delete_path", "move_path",
   "list_directory_contents", "execute_command", "set_brightness", "set_volume",
   "open_app", "close_app", "open_website", "search_info", "summarize_text",
   "media_play", "media_pause", "media_skip", "media_previous",
   "fill_web_form", "simulate_online_purchase", "general_query",
   "store_auth_info", "get_auth_info", "exit", "unknown"]

/-- Count of (possibly overlapping) occurrences of `pat` in `l`. -/
def occCount (pat : List Char) : List Char → Nat
  | [] => 0
  | c :: t => (if pat.isPrefixOf (c :: t) then 1 else 0) + occCount pat t

/-- Occurrence count of a substring in a string. -/
def strOccCount (s pat : String) : Nat :=
  occCount pat.toList s.toList

/-! Concrete collaborator fixtures

Used to instantiate the provider parameters in closed statements; each
records its argument in the returned message so an invocation is
observable. -/

def probeOSAgent : OSAgent where
  create_file := fun p _ _ => (true, "CREATE:" ++ p)
  create_directory := fun p => (true, "MKDIR:" ++ p)
  delete_path := fun p => (true, "DELETED:" ++ p)
  move_path := fun s d => (true, "MOVED:" ++ s ++ ">" ++ d)
  list_directory_contents := fun _ => (true, .inr ["a.txt"])
  execute_command := fun _ _ => (true, "done")
  set_brightness := fun n => (true, "BRIGHTNESS:" ++ toString n)
  set_volume := fun q => (true, "VOLUME:" ++ toString q.num)
  read_file_content := fun _ => (false, "no file")

def probeAppAgent : AppAgent where
  open_app := fun _ => true
  close_app := fun _ => true
  app_map_keys := ["notepad"]

def probeMediaAgent : MediaAgent where
  play := fun _ _ => (true, "playing")
  pause := fun _ => (true, "paused")
  skip_track := fun _ => (true, "skipped")
  previous_track := fun _ => (true, "previous")

def probeWebAgent : WebAgent where
  open_website := fun _ => true
  search_info := fun _ _ => "results"

/-! Theorems -/

set_option maxRecDepth 8000

theorem listInfix_iff {pat l : List Char} : listInfix pat l = true ↔ pat <:+: l := by
  induction l with
  | nil =>
      simp [listInfix, List.isEmpty_iff, List.infix_nil]
  | cons c t ih =>
      simp only [listInfix, Bool.or_eq_true, List.isPrefixOf_iff_prefix, ih,
        List.infix_cons_iff]

theorem listInfix_of_isEmpty {pat l : List Char} (h : pat = []) : listInfix pat l = true := by
  subst h
  cases l with
  | nil => rfl
  | cons c t => simp [listInfix, List.isPrefixOf]

theorem mem_of_getLastQ {α : Type} {l : List α} {x : α} (h : l.getLast? = some x) :
    x ∈ l := by
  induction l with
  | nil => simp at h
  | cons c t ih =>
      cases t with
      | nil => simp_all
      | cons d t' =>
          rw [List.getLast?_cons_cons] at h
          exact List.mem_cons_of_mem _ (ih h)

/-- A prefix match of `pat` against `a ++ b` that does not contain the
last character of the non-empty block `a` cannot straddle the junction:
it agrees with the match against `a` alone. -/
theorem isPrefixOf_append_boundary {pat a b : List Char} (hne : a ≠ [])
    (hch : ∀ x, a.getLast? = some x → x ∉ pat) :
    pat.isPrefixOf (a ++ b) = pat.isPrefixOf a := by
  by_cases hle : pat.length ≤ a.length
  · apply Bool.eq_iff_iff.mpr
    simp only [List.isPrefixOf_iff_prefix]
    constructor
    · intro hp
      have htake : pat = (a ++ b).take pat.length := List.prefix_iff_eq_take.mp hp
      rw [List.take_append_eq_append_take, Nat.sub_eq_zero_of_le hle, List.take_zero,
        List.append_nil] at htake
      rw [htake]
      exact List.take_prefix _ _
    · intro hp
      exact hp.trans (List.prefix_append a b)
  · push_neg at hle
    have hab : pat.isPrefixOf (a ++ b) = false := by
      cases h : pat.isPrefixOf (a ++ b) with
      | false => rfl
      | true =>
          exfalso
          obtain ⟨t, ht⟩ := List.isPrefixOf_iff_prefix.mp h
          have ha : a = pat.take a.length := by
            have h2 := congrArg (List.take a.length) ht
            rw [List.take_left, List.take_append_eq_append_take,
              Nat.sub_eq_zero_of_le (Nat.le_of_lt hle), List.take_zero,
              List.append_nil] at h2
            exact h2.symm
          obtain ⟨x, hx⟩ : ∃ x, a.getLast? = some x :=
            ⟨a.getLast hne, List.getLast?_eq_getLast a hne⟩
          have hsub : a ⊆ pat := by
            rw [ha]
            exact List.take_subset _ _
          exact hch x hx (hsub (mem_of_getLastQ hx))
    have haf : pat.isPrefixOf a = false := by
      cases h : pat.isPrefixOf a with
      | false => rfl
      | true =>
          exfalso
          have := (List.isPrefixOf_iff_prefix.mp h).length_le
          omega
    rw [hab, haf]

/-- Containment in `a ++ b` splits at the junction for a pattern that
does not contain the last character of `a`. -/
theorem listInfix_append_boundary {pat a b : List Char}
    (hch : ∀ x, a.getLast? = some x → x ∉ pat) :
    listInfix pat (a ++ b) = (listInfix pat a || listInfix pat b) := by
  induction a with
  | nil =>
      by_cases hpat : pat = []
      · subst hpat
        simp only [List.nil_append]
        rw [listInfix_of_isEmpty rfl, listInfix_of_isEmpty rfl]
        simp [listInfix]
      · simp [listInfix, List.isEmpty_iff, hpat]
  | cons c a' ih =>
      have hstep : pat.isPrefixOf (c :: a' ++ b) = pat.isPrefixOf (c :: a') :=
        @isPrefixOf_append_boundary pat (c :: a') b (by simp) hch
      have hih : listInfix pat (a' ++ b) = (listInfix pat a' || listInfix pat b) := by
        apply ih
        intro x hx
        apply hch
        cases a' with
        | nil => simp at hx
        | cons d t' => rw [List.getLast?_cons_cons]; exact hx
      show (pat.isPrefixOf (c :: (a' ++ b)) || listInfix pat (a' ++ b)) = _
      rw [show c :: (a' ++ b) = (c :: a') ++ b from rfl, hstep, hih]
      simp [listInfix, Bool.or_assoc]

theorem strContains_sandwich (a b c : String) : strContains (a ++ b ++ c) b = true := by
  rw [strContains, listInfix_iff]
  show b.data <:+: (a ++ b ++ c).data
  rw [String.data_append, String.data_append]
  exact List.infix_append _ _ _

theorem strContains_mono_left {a pat : String} (b : String)
    (h : strContains a pat = true) : strContains (a ++ b) pat = true := by
  rw [strContains, listInfix_iff] at *
  show pat.data <:+: (a ++ b).data
  rw [String.data_append]
  exact h.trans ⟨[], b.data, by simp⟩

theorem strContains_mono_right {b pat : String} (a : String)
    (h : strContains b pat = true) : strContains (a ++ b) pat = true := by
  rw [strContains, listInfix_iff] at *
  show pat.data <:+: (a ++ b).data
  rw [String.data_append]
  exact h.trans ⟨a.data, [], by simp⟩

/-! C1: `parse_command` never raises; shape of its failure returns -/

/-- C1 (amended): `parse_command` is total and never propagates an
exception.  On JSON decode failure it returns the `unknown` dict whose
`entities` map carries a non-empty `error` and `raw_response` equal to
the raw text; when Python membership rejects `intent`/`entities` it
returns the `unknown`/`error` dict; when the membership test itself
raises (non-container decode) the generic handler returns an `unknown`
dict with a non-empty `error`.  A decoded value that passes both
membership tests — even a non-object such as an array of the two key
names — is returned unchanged, not as intent `unknown`. -/
theorem parse_command_failure_shape (raw : String) :
    (jsonDecode (stripFences raw) = none →
       parse_command raw = decodeFailResult raw) ∧
    (∀ v, jsonDecode (stripFences raw) = some v → checkKeys v = .ok false →
       parse_command raw = malformedResult) ∧
    (∀ v e, jsonDecode (stripFences raw) = some v → checkKeys v = .error e →
       parse_command raw = genericFailResult (pyErrMsg e)) ∧
    (∀ v, jsonDecode (stripFences raw) = some v → checkKeys v = .ok true →
       parse_command raw = v) ∧
    (jsonGetField (decodeFailResult raw) "entities" =
       some (.obj [("error", .str "LLM response was not valid JSON."),
                   ("raw_response", .str raw)]) ∧
     "LLM response was not valid JSON." ≠ "") ∧
    (jsonGetField malformedResult "entities" =
       some (.obj [("error", .str "Malformed JSON structure from LLM.")]) ∧
     "Malformed JSON structure from LLM." ≠ "") ∧
    (∀ m, jsonGetField (genericFailResult m) "entities" =
       some (.obj [("error", .str ("An unexpected error occurred: " ++ m))]) ∧
     ("An unexpected error occurred: " ++ m) ≠ "") := by
  refine ⟨?_, ?_, ?_, ?_, ⟨by rfl, by decide⟩, ⟨by rfl, by decide⟩, ?_⟩
  · intro h
    simp only [parse_command, parseAttempt, h]
  · intro v hv hk
    simp only [parse_command, parseAttempt, hv, hk]
  · intro v e hv hk
    simp only [parse_command, parseAttempt, hv, hk]
  · intro v hv hk
    simp only [parse_command, parseAttempt, hv, hk]
  · intro m
    refine ⟨by rfl, ?_⟩
    intro hcon
    have hlen := congrArg String.length hcon
    rw [String.length_append] at hlen
    have h30 : ("An unexpected error occurred: ").length = 30 := by rfl
    rw [h30] at hlen
    have h0 : ("" : String).length = 0 := rfl
    rw [h0] at hlen
    omega

/-- Witness for C1 at the spec's own example input. -/
theorem parse_command_failure_shape_witness :
    parse_command "not json" = decodeFailResult "not json" :=
  (parse_command_failure_shape "not json").1 (by rfl)

/-- C1 counterexample to the claim as stated: a decoded JSON array
containing the two key names passes Python's membership test, so
`parse_command` returns it unchanged — the decoded value has no keys at
all, yet the returned intent is not `"unknown"` (the result has no
`intent` field). -/
theorem parse_command_nonobject_passthrough :
    parse_command "[\"intent\", \"entities\"]" =
      Json.arr [.str "intent", .str "entities"] ∧
    jsonGetField (parse_command "[\"intent\", \"entities\"]") "intent" = none := by
  constructor <;> rfl

/-! C2: the `entities` component of parser results -/

/-- C2 (amended): on every failure path the parser constructs its own
return value, whose `entities` component is a map carrying a non-empty
`error`; but a decoded value that passes the membership test is returned
unchanged, so its `entities` component can be null, a non-map, or
absent. -/
theorem parse_command_entities_map_on_failure (raw : String) :
    (∃ v, jsonDecode (stripFences raw) = some v ∧ checkKeys v = .ok true ∧
       parse_command raw = v) ∨
    (∃ kvs s, jsonGetField (parse_command raw) "entities" = some (Json.obj kvs) ∧
       lookupLast kvs "error" = some (.str s) ∧ s ≠ "") := by
  cases hd : jsonDecode (stripFences raw) with
  | none =>
      right
      refine ⟨[("error", .str "LLM response was not valid JSON."),
               ("raw_response", .str raw)],
              "LLM response was not valid JSON.", ?_, by rfl, by decide⟩
      simp only [parse_command, parseAttempt, hd]
      rfl
  | some v =>
      cases hk : checkKeys v with
      | error e =>
          right
          refine ⟨[("error", .str ("An unexpected error occurred: " ++ pyErrMsg e))],
                  "An unexpected error occurred: " ++ pyErrMsg e, ?_, by rfl, ?_⟩
          · simp only [parse_command, parseAttempt, hd, hk]
            rfl
          · intro hcon
            have hlen := congrArg String.length hcon
            rw [String.length_append] at hlen
            have h30 : ("An unexpected error occurred: ").length = 30 := by rfl
            rw [h30] at hlen
            have h0 : ("" : String).length = 0 := rfl
            rw [h0] at hlen
            omega
      | ok b =>
          cases b with
          | false =>
              right
              refine ⟨[("error", .str "Malformed JSON structure from LLM.")],
                      "Malformed JSON structure from LLM.", ?_, by rfl, by decide⟩
              simp only [parse_command, parseAttempt, hd, hk]
              rfl
          | true =>
              left
              exact ⟨v, rfl, hk, by simp only [parse_command, parseAttempt, hd, hk]⟩

/-- C2 counterexample to the claim as stated: an object with both keys
but a null `entities` passes the membership test and is returned with
`entities` equal to null, not a map. -/
theorem parse_command_null_entities_passthrough :
    parse_command "\x7b\"intent\": \"x\", \"entities\": null\x7d" =
      Json.obj [("intent", .str "x"), ("entities", .null)] ∧
    jsonGetField (parse_command "\x7b\"intent\": \"x\", \"entities\": null\x7d")
      "entities" = some Json.null := by
  constructor <;> rfl

/-! C3: no range check on the brightness level -/

/-- C3 (code-bug evidence): with entities `\x7b"level": 150\x7d` the
`set_brightness` branch coerces the level and hands `150` straight to
the provider — whatever provider is installed, its message is returned,
so the out-of-range level is not rejected and the provider call does
occur; with the brightness library present the call succeeds and even
reports `150%`. -/
theorem set_brightness_150_reaches_provider :
    (∀ (home : String) (os_agent : OSAgent),
       handle_os_interaction home os_agent "set_brightness"
         (.obj [("level", .intNum 150)]) = .ok (os_agent.set_brightness 150).2) ∧
    set_brightness true (fun _ => .ok ()) 150 = (true, "Brightness set to 150%") := by
  exact ⟨fun home os_agent => rfl, rfl⟩

/-! C4: the prompt template -/

/-- The whole built prompt contains `list_calendar_events` only if the
user text part does: the fixed template never mentions it.  (The scan is
split at the chunk junctions; the pattern contains neither a newline nor
a double quote, the characters at those junctions.) -/
theorem build_prompt_calendar_only_from_text (t : String) :
    strContains (build_prompt t) "list_calendar_events" =
      strContains (t ++ promptSuffix) "list_calendar_events" := by
  have hb1 : ∀ x, promptChunk1.toList.getLast? = some x →
      x ∉ ("list_calendar_events".toList) := by
    intro x hx
    rw [show promptChunk1.toList.getLast? = some '\n' from rfl] at hx
    cases hx
    decide
  have hb2 : ∀ x, promptChunk2.toList.getLast? = some x →
      x ∉ ("list_calendar_events".toList) := by
    intro x hx
    rw [show promptChunk2.toList.getLast? = some '\n' from rfl] at hx
    cases hx
    decide
  have hb3 : ∀ x, promptChunk3.toList.getLast? = some x →
      x ∉ ("list_calendar_events".toList) := by
    intro x hx
    rw [show promptChunk3.toList.getLast? = some '\n' from rfl] at hx
    cases hx
    decide
  have hb4 : ∀ x, promptChunk4.toList.getLast? = some x →
      x ∉ ("list_calendar_events".toList) := by
    intro x hx
    rw [show promptChunk4.toList.getLast? = some '"' from rfl] at hx
    cases hx
    decide
  have hshape : (build_prompt t).toList =
      promptChunk1.toList ++ (promptChunk2.toList ++ (promptChunk3.toList ++
        (promptChunk4.toList ++ (t ++ promptSuffix).toList))) := by
    show (build_prompt t).data = _
    simp [build_prompt, promptPrefix, String.data_append, String.toList,
      List.append_assoc]
  unfold strContains
  rw [hshape]
  rw [listInfix_append_boundary hb1, listInfix_append_boundary hb2,
    listInfix_append_boundary hb3, listInfix_append_boundary hb4]
  rw [show listInfix ("list_calendar_events".toList) promptChunk1.toList = false from by decide]
  rw [show listInfix ("list_calendar_events".toList) promptChunk2.toList = false from by decide]
  rw [show listInfix ("list_calendar_events".toList) promptChunk3.toList = false from by decide]
  rw [show listInfix ("list_calendar_events".toList) promptChunk4.toList = false from by decide]
  simp

/-- Counting occurrences in `a ++ b` splits at the junction for a
pattern that does not contain the last character of `a` (an occurrence
straddling the junction would have to contain it). -/
theorem occCount_append_boundary {pat a b : List Char}
    (hch : ∀ x, a.getLast? = some x → x ∉ pat) :
    occCount pat (a ++ b) = occCount pat a + occCount pat b := by
  induction a with
  | nil => simp [occCount]
  | cons c a' ih =>
      have hstep : pat.isPrefixOf (c :: a' ++ b) = pat.isPrefixOf (c :: a') :=
        @isPrefixOf_append_boundary pat (c :: a') b (by simp) hch
      have hih : occCount pat (a' ++ b) = occCount pat a' + occCount pat b := by
        apply ih
        intro x hx
        apply hch
        cases a' with
        | nil => simp at hx
        | cons d t' => rw [List.getLast?_cons_cons]; exact hx
      show (if pat.isPrefixOf (c :: (a' ++ b)) then 1 else 0) + occCount pat (a' ++ b) =
        occCount pat (c :: a') + occCount pat b
      rw [show c :: (a' ++ b) = (c :: a') ++ b from rfl, hstep, hih]
      show _ = (if pat.isPrefixOf (c :: a') then 1 else 0) + occCount pat a' + occCount pat b
      rw [Nat.add_assoc]

/-- The occurrence count of a newline-free, quote-free pattern in the
built prompt splits into per-chunk counts plus the count over the
embedded user text and the template tail. -/
theorem build_prompt_occ_split (t pat : String)
    (h1 : '\n' ∉ pat.toList) (h2 : '"' ∉ pat.toList) :
    strOccCount (build_prompt t) pat =
      strOccCount promptChunk1 pat + strOccCount promptChunk2 pat +
      strOccCount promptChunk3 pat + strOccCount promptChunk4 pat +
      strOccCount (t ++ promptSuffix) pat := by
  have hb1 : ∀ x, promptChunk1.toList.getLast? = some x → x ∉ pat.toList := by
    intro x hx
    rw [show promptChunk1.toList.getLast? = some '\n' from rfl] at hx
    cases hx
    exact h1
  have hb2 : ∀ x, promptChunk2.toList.getLast? = some x → x ∉ pat.toList := by
    intro x hx
    rw [show promptChunk2.toList.getLast? = some '\n' from rfl] at hx
    cases hx
    exact h1
  have hb3 : ∀ x, promptChunk3.toList.getLast? = some x → x ∉ pat.toList := by
    intro x hx
    rw [show promptChunk3.toList.getLast? = some '\n' from rfl] at hx
    cases hx
    exact h1
  have hb4 : ∀ x, promptChunk4.toList.getLast? = some x → x ∉ pat.toList := by
    intro x hx
    rw [show promptChunk4.toList.getLast? = some '"' from rfl] at hx
    cases hx
    exact h2
  have hshape : (build_prompt t).toList =
      promptChunk1.toList ++ (promptChunk2.toList ++ (promptChunk3.toList ++
        (promptChunk4.toList ++ (t ++ promptSuffix).toList))) := by
    show (build_prompt t).data = _
    simp [build_prompt, promptPrefix, String.data_append, String.toList,
      List.append_assoc]
  unfold strOccCount
  rw [hshape]
  rw [occCount_append_boundary hb1, occCount_append_boundary hb2,
    occCount_append_boundary hb3, occCount_append_boundary hb4]
  omega

/-- C4 (amended): the built prompt embeds the user text verbatim at its
single interpolation point (hence contains it at least once; a text that
also occurs in the fixed template text appears additional times, so
"exactly once" holds only for non-colliding texts — witnessed by the
exactly-once count for a representative non-colliding command); and it
lists every intent tag of the source taxonomy, which does not include
the calendar intents. -/
theorem build_prompt_text_and_taxonomy :
    (∀ t : String, strContains (build_prompt t) t = true) ∧
    (∀ tag ∈ promptIntentTags, ∀ t : String,
       strContains (build_prompt t) tag = true) ∧
    strContains (build_prompt "create a file named hello")
      "list_calendar_events" = false ∧
    strOccCount (build_prompt "please delete my old notes")
      "please delete my old notes" = 1 := by
  refine ⟨?_, ?_, ?_, ?_⟩
  · intro t
    exact strContains_sandwich promptPrefix t promptSuffix
  · intro tag htag t
    have hall : promptIntentTags.all (fun tag => strContains promptChunk1 tag) = true := by
      decide
    have h1 : strContains promptChunk1 tag = true :=
      List.all_eq_true.mp hall tag htag
    have hpre : strContains promptPrefix tag = true := by
      show strContains (promptChunk1 ++ promptChunk2 ++ promptChunk3 ++ promptChunk4) tag = true
      exact strContains_mono_left _ (strContains_mono_left _ (strContains_mono_left _ h1))
    show strContains (promptPrefix ++ t ++ promptSuffix) tag = true
    exact strContains_mono_left _ (strContains_mono_left _ hpre)
  · rw [build_prompt_calendar_only_from_text]
    decide
  · rw [build_prompt_occ_split "please delete my old notes" "please delete my old notes"
      (by decide) (by decide)]
    decide

/-- Witness for C4: the prompt built for a sample command contains the
command verbatim and the `create_file` tag. -/
theorem build_prompt_text_and_taxonomy_witness :
    strContains (build_prompt "hello") "create_file" = true :=
  build_prompt_text_and_taxonomy.2.1 "create_file" (by decide) "hello"

/-- C4 counterexample to the claim as stated: the taxonomy enumerated by
the source prompt does not contain `list_calendar_events` — for a
representative user text the built prompt does not mention it at all —
and the prompt built for the user text `"intent"`, which also occurs in
the fixed template, does not contain that text exactly once (it contains
it six times). -/
theorem build_prompt_no_calendar_intent :
    strContains (build_prompt "set volume to 50%") "list_calendar_events" = false ∧
    strOccCount (build_prompt "intent") "intent" ≠ 1 := by
  constructor
  · rw [build_prompt_calendar_only_from_text]
    decide
  · rw [build_prompt_occ_split "intent" "intent" (by decide) (by decide)]
    decide

/-! C5/C6 groundwork: a relative path never trips the root check -/

theorem splitCharAux_no_sep {sep : Char} :
    ∀ (l cur : List Char), sep ∉ cur →
      ∀ seg ∈ splitCharAux sep cur l, sep ∉ seg := by
  intro l
  induction l with
  | nil =>
      intro cur hcur seg hseg
      simp only [splitCharAux, List.mem_singleton] at hseg
      subst hseg
      simpa using hcur
  | cons c t ih =>
      intro cur hcur seg hseg
      simp only [splitCharAux] at hseg
      by_cases hc : c = sep
      · rw [if_pos hc] at hseg
        rcases List.mem_cons.mp hseg with h | h
        · subst h
          simpa using hcur
        · exact ih [] (by simp) seg h
      · rw [if_neg hc] at hseg
        refine ih (c :: cur) ?_ seg hseg
        intro hmem
        rcases List.mem_cons.mp hmem with h | h
        · exact hc h.symm
        · exact hcur h

theorem pySplitChar_no_sep {sep : Char} {s : String} :
    ∀ c ∈ pySplitChar sep s, sep ∉ c.toList := by
  intro c hc
  simp only [pySplitChar, List.mem_map] at hc
  obtain ⟨seg, hseg, hmk⟩ := hc
  have := splitCharAux_no_sep s.toList [] (by simp) seg hseg
  subst hmk
  simpa [String.toList] using this

theorem foldl_normStep_good {k : Nat} :
    ∀ (comps acc : List String),
      (∀ e ∈ acc, e ≠ "" ∧ '/' ∉ e.toList) →
      (∀ c ∈ comps, '/' ∉ c.toList) →
      ∀ e ∈ comps.foldl (normStep k) acc, e ≠ "" ∧ '/' ∉ e.toList := by
  intro comps
  induction comps with
  | nil =>
      intro acc hacc _ e he
      exact hacc e he
  | cons c rest ih =>
      intro acc hacc hcomps e he
      rw [List.foldl_cons] at he
      refine ih (normStep k acc c) ?_ (fun x hx => hcomps x (List.mem_cons_of_mem _ hx)) e he
      intro x hx
      unfold normStep at hx
      by_cases h1 : c = "" ∨ c = "."
      · rw [if_pos h1] at hx
        exact hacc x hx
      · rw [if_neg h1] at hx
        by_cases h2 : c ≠ ".." ∨ (k = 0 ∧ acc = []) ∨ acc.getLast? = some ".."
        · rw [if_pos h2] at hx
          rcases List.mem_append.mp hx with h | h
          · exact hacc x h
          · have hxc : x = c := by simpa using h
            rw [hxc]
            push_neg at h1
            exact ⟨h1.1, hcomps c (List.mem_cons_self c rest)⟩
        · rw [if_neg h2] at hx
          by_cases h3 : acc ≠ []
          · rw [if_pos h3] at hx
            exact hacc x (List.dropLast_subset acc hx)
          · rw [if_neg h3] at hx
            exact hacc x hx

theorem joinChar_head_ne_slash :
    ∀ (comps : List String), (∀ e ∈ comps, e ≠ "" ∧ '/' ∉ e.toList) →
      ∀ c, (joinChar '/' comps).head? = some c → c ≠ '/' := by
  intro comps
  induction comps with
  | nil =>
      intro _ c hc
      simp [joinChar] at hc
  | cons a rest ih =>
      intro hgood c hc
      have ha := hgood a (List.mem_cons_self a rest)
      have hanil : a.toList ≠ [] := by
        intro hnil
        exact ha.1 (String.ext (show a.data = ("" : String).data by simpa [String.toList] using hnil))
      cases rest with
      | nil =>
          simp only [joinChar] at hc
          cases hal : a.toList with
          | nil => exact absurd hal hanil
          | cons d t =>
              rw [hal] at hc
              simp only [List.head?_cons, Option.some.injEq] at hc
              subst hc
              intro hd
              exact ha.2 (hd ▸ (hal ▸ List.mem_cons_self d t))
      | cons b rest' =>
          simp only [joinChar] at hc
          cases hal : a.toList with
          | nil => exact absurd hal hanil
          | cons d t =>
              rw [hal] at hc
              simp only [List.cons_append, List.head?_cons, Option.some.injEq] at hc
              subst hc
              intro hd
              exact ha.2 (hd ▸ (hal ▸ List.mem_cons_self d t))

/-- Normalization of a relative path stays relative. -/
theorem normpath_not_abs {p : String} (h : strStartsWith p "/" = false) :
    strStartsWith (posix_normpath p) "/" = false := by
  unfold posix_normpath
  by_cases hp : p = ""
  · rw [if_pos hp]
    decide
  · rw [if_neg hp]
    simp only [h, Bool.false_eq_true, if_false, List.replicate_zero, List.nil_append]
    have hgood : ∀ e ∈ (pySplitChar '/' p).foldl (normStep 0) [],
        e ≠ "" ∧ '/' ∉ e.toList :=
      foldl_normStep_good (pySplitChar '/' p) [] (by simp) pySplitChar_no_sep
    set newComps := (pySplitChar '/' p).foldl (normStep 0) [] with hnc
    by_cases hres : joinChar '/' newComps = []
    · rw [if_pos hres]
      decide
    · rw [if_neg hres]
      cases hj : joinChar '/' newComps with
      | nil => exact absurd hj hres
      | cons c t =>
          have hc : c ≠ '/' := joinChar_head_ne_slash newComps hgood c (by rw [hj]; rfl)
          show ("/".toList).isPrefixOf (String.mk (c :: t)).toList = false
          show ['/'].isPrefixOf (c :: t) = false
          simp [List.isPrefixOf, Ne.symm hc]

/-- A relative path never counts as a root-path attempt after
normalization. -/
theorem isRootPathAttempt_normpath_rel {p : String} (h : isAbs p = false) :
    isRootPathAttempt (posix_normpath p) = false := by
  unfold isRootPathAttempt
  rw [normpath_not_abs h]
  simp

/-- Resolution against the home directory in explicit form. -/
theorem homeResolve_eq {home p : String} (habs : isAbs p = false)
    (hr : pyRStripChar '/' home = home) :
    homeResolve home p = home ++ "/" ++ p := by
  unfold homeResolve posix_join
  rw [show strStartsWith p "/" = false from habs]
  simp only [Bool.false_eq_true, if_false]
  rw [if_neg (by decide : ¬ (("~" : String) = "" ∨ strEndsWith "~" "/" = true))]
  unfold posix_expanduser
  have htl : ("~" ++ "/" ++ p).toList = '~' :: '/' :: p.data := by
    show ("~" ++ "/" ++ p).data = _
    rw [String.data_append, String.data_append]
    rfl
  rw [htl]
  simp only [List.head?_cons, Option.some.injEq, List.cons_ne_nil, false_or,
    eq_self_iff_true, if_true]
  rw [hr]
  have hne : home ++ String.mk ('/' :: p.data) ≠ "" := by
    intro hcon
    have := congrArg String.data hcon
    rw [String.data_append] at this
    exact List.append_ne_nil_of_right_ne_nil home.data (by simp) this
  rw [if_neg hne]
  apply String.ext
  simp [String.data_append]

/-- The `create_file` branch of `handle_os_interaction` in reduced form
(the entity extraction and monadic plumbing evaluate away). -/
theorem create_file_branch_eq (home p : String) (os_agent : OSAgent) :
    handle_os_interaction home os_agent "create_file"
      (.obj [("filepath", .str p)]) =
      (if pyTruthy (.str p) = true then
        if isRootPathAttempt (posix_normpath p) = true then
          pure (rootRejectMessage1 (posix_normpath p))
        else if isAbs p = true then
          if strStartsWith p "/" = true ∧
              (pySplitChar '/' (pyStripChar '/' p)).length = 1 then
            pure (rootRejectMessage2 p)
          else pure (os_agent.create_file p (.str "") (.str "txt")).2
        else pure (os_agent.create_file (homeResolve home p) (.str "") (.str "txt")).2
      else pure "I need a filepath to create a file.") := rfl

/-- The `create_directory` branch in reduced form. -/
theorem create_directory_branch_eq (home p : String) (os_agent : OSAgent) :
    handle_os_interaction home os_agent "create_directory"
      (.obj [("dir_path", .str p)]) =
      (if pyTruthy (.str p) = true then
        pure (os_agent.create_directory
          (if ¬ isAbs p = true then homeResolve home p else p)).2
      else pure "I need a directory path to create a directory.") := rfl

/-- The `delete_path` branch in reduced form. -/
theorem delete_path_branch_eq (home p : String) (os_agent : OSAgent) :
    handle_os_interaction home os_agent "delete_path"
      (.obj [("path", .str p)]) =
      (if pyTruthy (.str p) = true then
        pure (os_agent.delete_path
          (if ¬ isAbs p = true then homeResolve home p else p)).2
      else pure "I need a path to delete.") := rfl

/-- The `move_path` branch in reduced form. -/
theorem move_path_branch_eq (home sp dp : String) (os_agent : OSAgent) :
    handle_os_interaction home os_agent "move_path"
      (.obj [("source_path", .str sp), ("destination_path", .str dp)]) =
      (if (pyTruthy (.str sp) = true ∧ pyTruthy (.str dp) = true) then
        pure (os_agent.move_path
          (if ¬ isAbs sp = true then homeResolve home sp else sp)
          (if ¬ isAbs dp = true then homeResolve home dp else dp)).2
      else pure "I need both a source and a destination path to move.") := rfl

/-- C5 (amended): only the `create_file` intent rejects a
single-segment-below-root absolute path (with the root-restriction
message, without invoking its handler); `create_directory`,
`delete_path` and `move_path` forward absolute paths — including
single-segment root paths — to their handlers unchecked.  For all four
intents a non-absolute supplied path is resolved relative to the home
directory. -/
theorem path_root_guard_create_file_only :
    (∀ (home p : String) (os_agent : OSAgent), p ≠ "" →
       isRootPathAttempt (posix_normpath p) = true →
       handle_os_interaction home os_agent "create_file"
         (.obj [("filepath", .str p)]) =
         .ok (rootRejectMessage1 (posix_normpath p))) ∧
    (∀ (home p : String) (os_agent : OSAgent), p ≠ "" → isAbs p = false →
       handle_os_interaction home os_agent "create_file"
         (.obj [("filepath", .str p)]) =
         .ok (os_agent.create_file (homeResolve home p) (.str "") (.str "txt")).2) ∧
    (∀ (home p : String) (os_agent : OSAgent), p ≠ "" → isAbs p = false →
       handle_os_interaction home os_agent "create_directory"
         (.obj [("dir_path", .str p)]) =
         .ok (os_agent.create_directory (homeResolve home p)).2) ∧
    (∀ (home p : String) (os_agent : OSAgent), p ≠ "" → isAbs p = true →
       handle_os_interaction home os_agent "create_directory"
         (.obj [("dir_path", .str p)]) =
         .ok (os_agent.create_directory p).2) ∧
    (∀ (home p : String) (os_agent : OSAgent), p ≠ "" → isAbs p = false →
       handle_os_interaction home os_agent "delete_path"
         (.obj [("path", .str p)]) =
         .ok (os_agent.delete_path (homeResolve home p)).2) ∧
    (∀ (home p : String) (os_agent : OSAgent), p ≠ "" → isAbs p = true →
       handle_os_interaction home os_agent "delete_path"
         (.obj [("path", .str p)]) =
         .ok (os_agent.delete_path p).2) ∧
    (∀ (home sp dp : String) (os_agent : OSAgent),
       sp ≠ "" → dp ≠ "" → isAbs sp = false → isAbs dp = false →
       handle_os_interaction home os_agent "move_path"
         (.obj [("source_path", .str sp), ("destination_path", .str dp)]) =
         .ok (os_agent.move_path (homeResolve home sp) (homeResolve home dp)).2) ∧
    (∀ (home sp dp : String) (os_agent : OSAgent),
       sp ≠ "" → dp ≠ "" → isAbs sp = true → isAbs dp = true →
       handle_os_interaction home os_agent "move_path"
         (.obj [("source_path", .str sp), ("destination_path", .str dp)]) =
         .ok (os_agent.move_path sp dp).2) ∧
    (∀ home p : String, isAbs p = false → pyRStripChar '/' home = home →
       homeResolve home p = home ++ "/" ++ p) := by
  refine ⟨?_, ?_, ?_, ?_, ?_, ?_, ?_, ?_, fun home p habs hr => homeResolve_eq habs hr⟩
  · intro home p os_agent hp hroot
    rw [create_file_branch_eq]
    simp [pyTruthy, hp, hroot]
    rfl
  · intro home p os_agent hp habs
    rw [create_file_branch_eq]
    simp [pyTruthy, hp, habs, isRootPathAttempt_normpath_rel habs]
    rfl
  · intro home p os_agent hp habs
    rw [create_directory_branch_eq]
    simp [pyTruthy, hp, habs]
    rfl
  · intro home p os_agent hp habs
    rw [create_directory_branch_eq]
    simp [pyTruthy, hp, habs]
    rfl
  · intro home p os_agent hp habs
    rw [delete_path_branch_eq]
    simp [pyTruthy, hp, habs]
    rfl
  · intro home p os_agent hp habs
    rw [delete_path_branch_eq]
    simp [pyTruthy, hp, habs]
    rfl
  · intro home sp dp os_agent hs hd habs1 habs2
    rw [move_path_branch_eq]
    simp [pyTruthy, hs, hd, habs1, habs2]
    rfl
  · intro home sp dp os_agent hs hd habs1 habs2
    rw [move_path_branch_eq]
    simp [pyTruthy, hs, hd, habs1, habs2]
    rfl

/-- Witness for C5: the `create_file` root rejection fires on
`/victim.txt`, and a relative delete path is resolved against home. -/
theorem path_root_guard_create_file_only_witness :
    handle_os_interaction "/home/user" probeOSAgent "create_file"
      (.obj [("filepath", .str "/victim.txt")]) =
      .ok (rootRejectMessage1 (posix_normpath "/victim.txt")) ∧
    handle_os_interaction "/home/user" probeOSAgent "delete_path"
      (.obj [("path", .str "docs/old.txt")]) =
      .ok (probeOSAgent.delete_path (homeResolve "/home/user" "docs/old.txt")).2 :=
  ⟨path_root_guard_create_file_only.1 "/home/user" "/victim.txt" probeOSAgent
     (by decide) (by rfl),
   path_root_guard_create_file_only.2.2.2.2.1 "/home/user" "docs/old.txt" probeOSAgent
     (by decide) (by rfl)⟩

/-- C5 counterexample to the claim as stated: deleting the root-level
path `/victim.txt` is not rejected — the delete handler is invoked with
the path unchanged (the probe provider records the call). -/
theorem delete_path_root_forwarded :
    handle_os_interaction "/home/user" probeOSAgent "delete_path"
      (.obj [("path", .str "/victim.txt")]) = .ok "DELETED:/victim.txt" := by
  rfl

/-- C6 (confirmed): `create_file` with `\x7b"filepath": "notes.txt"\x7d`
normalizes the path to `<home>/notes.txt` before calling the provider;
with `\x7b"filepath": "/notes.txt"\x7d` it returns the root-write
refusal message and, being constant in the provider, never calls it. -/
theorem create_file_notes_normalization :
    (∀ (home : String) (os_agent : OSAgent), pyRStripChar '/' home = home →
       handle_os_interaction home os_agent "create_file"
         (.obj [("filepath", .str "notes.txt")]) =
         .ok (os_agent.create_file (home ++ "/notes.txt") (.str "") (.str "txt")).2) ∧
    (∀ (home : String) (os_agent : OSAgent),
       handle_os_interaction home os_agent "create_file"
         (.obj [("filepath", .str "/notes.txt")]) =
         .ok (rootRejectMessage1 "/notes.txt")) := by
  constructor
  · intro home os_agent hr
    have hres : homeResolve home "notes.txt" = home ++ "/notes.txt" := by
      rw [homeResolve_eq (by rfl) hr, String.append_assoc]
      rfl
    rw [show handle_os_interaction home os_agent "create_file"
          (.obj [("filepath", .str "notes.txt")]) =
        .ok (os_agent.create_file (homeResolve home "notes.txt")
          (.str "") (.str "txt")).2 from rfl, hres]
  · intro home os_agent
    rfl

/-- Witness for C6 at a concrete home directory. -/
theorem create_file_notes_normalization_witness :
    handle_os_interaction "/home/user" probeOSAgent "create_file"
      (.obj [("filepath", .str "notes.txt")]) =
      .ok (probeOSAgent.create_file ("/home/user" ++ "/notes.txt")
        (.str "") (.str "txt")).2 :=
  create_file_notes_normalization.1 "/home/user" probeOSAgent (by rfl)

/-- C7 (confirmed): the `set_volume` branch coerces the float level and
forwards it to the provider; the provider rejects any level outside
`[0.0, 1.0]` with the fixed error message before touching the platform
backend (the result is constant in the backend), and forwards an
in-range level such as `0.5` to the backend unchanged. -/
theorem set_volume_range_and_forwarding :
    (∀ (home : String) (os_agent : OSAgent) (q : Rat),
       handle_os_interaction home os_agent "set_volume"
         (.obj [("level", .floatNum q)]) = .ok (os_agent.set_volume q).2) ∧
    (∀ backend : Rat → Bool × String,
       set_volume backend (3 / 2) =
         (false, "Volume level must be between 0.0 and 1.0.")) ∧
    (∀ backend : Rat → Bool × String, set_volume backend (1 / 2) = backend (1 / 2)) := by
  refine ⟨fun home os_agent q => rfl, fun backend => ?_, fun backend => ?_⟩
  · rw [set_volume, if_pos]
    rw [not_and_or]
    right
    intro h
    norm_num at h
  · rw [set_volume, if_neg]
    rw [not_not]
    constructor <;> norm_num

/-! C8: termination paths of the main loop -/

/-- Binding over a ready `Except.ok`, as one rewriting step. -/
theorem except_bind_ok {e a b : Type} (x : a) (f : a → Except e b) :
    (Except.ok x : Except e a) >>= f = f x := rfl

/-- The loop body breaks only with the fixed farewell. -/
theorem mainBody_break_only_goodbye
    (home : String) (osA : OSAgent) (appA : AppAgent) (medA : MediaAgent)
    (webA : WebAgent) (t : String) (parsed : Json) (b : Bool) (msg : String)
    (h : mainBody home osA appA medA webA t parsed = .ok (b, msg)) (hb : b = true) :
    msg = "Goodbye!" := by
  subst hb
  unfold mainBody at h
  cases h1 : pyDictGet parsed "intent" (.str "unknown") with
  | error e =>
      rw [h1] at h
      exact Except.noConfusion h
  | ok intent =>
      cases h2 : pyDictGet parsed "entities" (.obj []) with
      | error e =>
          simp only [h1, except_bind_ok, h2] at h
          exact Except.noConfusion h
      | ok entities =>
          simp only [h1, h2, except_bind_ok] at h
          cases hie : pyEqStr intent "exit" with
          | true =>
              rw [hie] at h
              simp only [if_true] at h
              cases h
              rfl
          | false =>
              rw [hie] at h
              simp only [Bool.false_eq_true, if_false] at h
              cases h3 : dispatchRest home osA appA medA webA t intent entities with
              | error e =>
                  rw [h3] at h
                  exact Except.noConfusion h
              | ok r =>
                  rw [h3] at h
                  cases h

/-- C8 (confirmed): an utterance containing a sentinel phrase terminates
the loop with the fixed farewell for every parser (so before the parser
is consulted); a parsed `exit` intent terminates with the same fixed
message whatever the entities; and whenever the loop decides to break,
the message is exactly `"Goodbye!"`. -/
theorem main_loop_exit_sentinel :
    (∀ (parser : String → Json) (home : String) (osA : OSAgent) (appA : AppAgent)
       (medA : MediaAgent) (webA : WebAgent) (t : String),
       (strContains t "exit jarvis" = true ∨ strContains t "quit jarvis" = true) →
       mainStep parser home osA appA medA webA t = .terminate "Goodbye!") ∧
    (∀ (parser : String → Json) (home : String) (osA : OSAgent) (appA : AppAgent)
       (medA : MediaAgent) (webA : WebAgent) (t : String)
       (kvs : List (String × Json)),
       t ≠ "" →
       strContains t "exit jarvis" = false → strContains t "quit jarvis" = false →
       parser t = .obj kvs →
       lookupLast kvs "intent" = some (.str "exit") →
       mainStep parser home osA appA medA webA t = .terminate "Goodbye!") ∧
    (∀ (parser : String → Json) (home : String) (osA : OSAgent) (appA : AppAgent)
       (medA : MediaAgent) (webA : WebAgent) (t m : String),
       mainStep parser home osA appA medA webA t = .terminate m → m = "Goodbye!") := by
  refine ⟨?_, ?_, ?_⟩
  · intro parser home osA appA medA webA t h
    by_cases ht : t = ""
    · subst ht
      rcases h with h | h <;> exact absurd h (by decide)
    · unfold mainStep
      rw [if_neg ht, if_pos h]
  · intro parser home osA appA medA webA t kvs ht hex hquit hp hlook
    have hsent : ¬ (strContains t "exit jarvis" = true ∨ strContains t "quit jarvis" = true) := by
      simp [hex, hquit]
    have hintent : pyDictGet (Json.obj kvs) "intent" (.str "unknown") =
        .ok (.str "exit") := by
      simp [pyDictGet, hlook]
    have hbody : mainBody home osA appA medA webA t (Json.obj kvs) =
        .ok (true, "Goodbye!") := by
      unfold mainBody
      rw [hintent]
      rfl
    unfold mainStep
    rw [if_neg ht, if_neg hsent, hp, hbody]
  · intro parser home osA appA medA webA t m h
    unfold mainStep at h
    by_cases ht : t = ""
    · rw [if_pos ht] at h
      exact StepResult.noConfusion h
    · rw [if_neg ht] at h
      by_cases hs : (strContains t "exit jarvis" = true ∨ strContains t "quit jarvis" = true)
      · rw [if_pos hs] at h
        injection h with h'
        exact h'.symm
      · rw [if_neg hs] at h
        cases hb : mainBody home osA appA medA webA t (parser t) with
        | error e =>
            rw [hb] at h
            exact StepResult.noConfusion h
        | ok pr =>
            obtain ⟨b, msg⟩ := pr
            rw [hb] at h
            cases b with
            | false => exact StepResult.noConfusion h
            | true =>
                have hmsg := mainBody_break_only_goodbye home osA appA medA webA
                  t (parser t) true msg hb rfl
                injection h with h'
                rw [← h', hmsg]

/-- Witness for C8: the sentinel fast path fires whatever the parser
would say, and the `exit` intent fires whatever the entities hold. -/
theorem main_loop_exit_sentinel_witness :
    mainStep (fun _ => Json.obj []) "/home/user" probeOSAgent probeAppAgent
      probeMediaAgent probeWebAgent "please exit jarvis now" = .terminate "Goodbye!" ∧
    mainStep (fun _ => Json.obj [("intent", .str "exit"), ("entities", .null)])
      "/home/user" probeOSAgent probeAppAgent probeMediaAgent probeWebAgent
      "goodbye" = .terminate "Goodbye!" :=
  ⟨main_loop_exit_sentinel.1 (fun _ => Json.obj []) "/home/user" probeOSAgent
     probeAppAgent probeMediaAgent probeWebAgent "please exit jarvis now"
     (Or.inl (by decide)),
   main_loop_exit_sentinel.2.1 (fun _ => Json.obj [("intent", .str "exit"), ("entities", .null)])
     "/home/user" probeOSAgent probeAppAgent probeMediaAgent probeWebAgent
     "goodbye" [("intent", .str "exit"), ("entities", .null)]
     (by decide) (by decide) (by decide) rfl rfl⟩

/-! C9: the `/command` endpoint -/

theorem lookupLast_some_imp_any {kvs : List (String × Json)} {k : String} {v : Json}
    (h : lookupLast kvs k = some v) : (kvs.any fun kv => kv.1 = k) = true := by
  induction kvs with
  | nil => simp [lookupLast] at h
  | cons hd rest ih =>
      obtain ⟨k', v'⟩ := hd
      rw [lookupLast] at h
      cases hr : lookupLast rest k with
      | some r =>
          rw [hr] at h
          injection h with hrv
          subst hrv
          rw [List.any_cons, ih hr, Bool.or_true]
      | none =>
          rw [hr] at h
          by_cases hk : k' = k
          · rw [List.any_cons]
            simp [hk]
          · rw [if_neg hk] at h
            exact Option.noConfusion h

theorem lookupLast_none_imp_any {kvs : List (String × Json)} {k : String}
    (h : lookupLast kvs k = none) : (kvs.any fun kv => kv.1 = k) = false := by
  induction kvs with
  | nil => simp
  | cons hd rest ih =>
      obtain ⟨k', v'⟩ := hd
      rw [lookupLast] at h
      cases hr : lookupLast rest k with
      | some r =>
          rw [hr] at h
          exact Option.noConfusion h
      | none =>
          rw [hr] at h
          by_cases hk : k' = k
          · rw [if_pos hk] at h
            exact Option.noConfusion h
          · rw [List.any_cons, ih hr]
            simp [hk]

/-- The `/command` handler on an object body, in reduced form. -/
theorem handle_command_obj_eq (pipeline : Json → String) (ready : Bool)
    (kvs : List (String × Json)) :
    handle_command pipeline ready (some (.obj kvs)) =
      (if ¬ pyTruthy (.obj kvs) = true then .ok (commandErrBody, 400)
       else if ¬ (kvs.any fun kv => kv.1 = "command") = true then
         .ok (commandErrBody, 400)
       else do
         let command_text ← pyGetItem (Json.obj kvs) "command"
         if ¬ ready = true then
           pure (Json.obj [("response", .str "Error: Assistant components not ready.")], 500)
         else
           pure (Json.obj [("response", .str (pipeline command_text))], 200)) := rfl

/-- C9 (confirmed): a JSON object body carrying a `command` field is
processed through the pipeline and answered with
`\x7b"response": <text>\x7d` and status 200 (components ready); a
missing body or an object body without the field gets the 400 error
response. -/
theorem handle_command_contract :
    (∀ (pipeline : Json → String) (kvs : List (String × Json)) (v : Json),
       lookupLast kvs "command" = some v →
       handle_command pipeline true (some (.obj kvs)) =
         .ok (.obj [("response", .str (pipeline v))], 200)) ∧
    (∀ (pipeline : Json → String) (ready : Bool),
       handle_command pipeline ready none = .ok (commandErrBody, 400)) ∧
    (∀ (pipeline : Json → String) (ready : Bool) (kvs : List (String × Json)),
       lookupLast kvs "command" = none →
       handle_command pipeline ready (some (.obj kvs)) =
         .ok (commandErrBody, 400)) := by
  refine ⟨?_, fun pipeline ready => rfl, ?_⟩
  · intro pipeline kvs v hlook
    have hne : kvs ≠ [] := by
      rintro rfl
      simp [lookupLast] at hlook
    have hget : pyGetItem (Json.obj kvs) "command" = .ok v := by
      simp [pyGetItem, hlook]
    rw [handle_command_obj_eq, hget]
    simp [pyTruthy, hne, lookupLast_some_imp_any hlook]
  · intro pipeline ready kvs hlook
    by_cases hne : kvs = []
    · subst hne
      rw [handle_command_obj_eq]
      simp [pyTruthy]
    · rw [handle_command_obj_eq]
      simp [pyTruthy, hne, lookupLast_none_imp_any hlook]

/-- Witness for C9 at a concrete request. -/
theorem handle_command_contract_witness :
    handle_command (fun _ => "done") true
      (some (.obj [("command", .str "open chrome")])) =
      .ok (.obj [("response", .str "done")], 200) ∧
    handle_command (fun _ => "done") true (some (.obj [("other", .intNum 1)])) =
      .ok (commandErrBody, 400) :=
  ⟨handle_command_contract.1 (fun _ => "done")
     [("command", .str "open chrome")] (.str "open chrome") rfl,
   handle_command_contract.2.2 (fun _ => "done") true [("other", .intNum 1)] rfl⟩

/-! C10: extension defaulting in `create_file` -/

/-- C10 (confirmed): the written path differs from the requested one per
the extension rules — default/`txt` appends `.txt` when the basename has
no dot, `document` appends `.txt` unless the path ends in
`.txt`/`.md`/`.rtf`, `spreadsheet` appends `.csv` unless it ends in
`.csv`/`.tsv` — and whenever the written path differs, the success
message contains the originally requested path. -/
theorem create_file_extension_rules :
    (∀ fp : String, (posix_basename fp).toList.contains '.' = false →
       actual_filepath fp "txt" = fp ++ ".txt") ∧
    (∀ fp : String, (posix_basename fp).toList.contains '.' = true →
       actual_filepath fp "txt" = fp) ∧
    (∀ fp : String, strEndsWith fp ".txt" = false → strEndsWith fp ".md" = false →
       strEndsWith fp ".rtf" = false →
       actual_filepath fp "document" = fp ++ ".txt") ∧
    (∀ fp : String,
       (strEndsWith fp ".txt" = true ∨ strEndsWith fp ".md" = true ∨
        strEndsWith fp ".rtf" = true) →
       actual_filepath fp "document" = fp) ∧
    (∀ fp : String, strEndsWith fp ".csv" = false → strEndsWith fp ".tsv" = false →
       actual_filepath fp "spreadsheet" = fp ++ ".csv") ∧
    (∀ fp : String,
       (strEndsWith fp ".csv" = true ∨ strEndsWith fp ".tsv" = true) →
       actual_filepath fp "spreadsheet" = fp) ∧
    (∀ fp ft : String, actual_filepath fp ft ≠ fp →
       strContains (create_file_success_message fp ft) fp = true) := by
  refine ⟨?_, ?_, ?_, ?_, ?_, ?_, ?_⟩
  · intro fp h
    unfold actual_filepath
    rw [if_neg (by decide : ¬ (("txt" : String) = "document")),
      if_neg (by decide : ¬ (("txt" : String) = "spreadsheet")),
      if_pos (by rw [h]; decide)]
  · intro fp h
    unfold actual_filepath
    rw [if_neg (by decide : ¬ (("txt" : String) = "document")),
      if_neg (by decide : ¬ (("txt" : String) = "spreadsheet")),
      if_neg (by rw [h]; decide)]
  · intro fp h1 h2 h3
    unfold actual_filepath
    rw [if_pos (rfl : ("document" : String) = "document"),
      if_pos (by rw [h1, h2, h3]; decide)]
  · intro fp h
    unfold actual_filepath
    rw [if_pos (rfl : ("document" : String) = "document"),
      if_neg (by
        rcases h with h | h | h <;> rw [h] <;> simp)]
  · intro fp h1 h2
    unfold actual_filepath
    rw [if_neg (by decide : ¬ (("spreadsheet" : String) = "document")),
      if_pos (rfl : ("spreadsheet" : String) = "spreadsheet"),
      if_pos (by rw [h1, h2]; decide)]
  · intro fp h
    unfold actual_filepath
    rw [if_neg (by decide : ¬ (("spreadsheet" : String) = "document")),
      if_pos (rfl : ("spreadsheet" : String) = "spreadsheet"),
      if_neg (by
        rcases h with h | h <;> rw [h] <;> simp)]
  · intro fp ft h
    unfold create_file_success_message
    rw [if_pos h]
    exact strContains_sandwich (pyCapitalize ft ++ " file created: " ++
      actual_filepath fp ft ++ " (requested as ") fp ")"

/-- Witness for C10 on concrete paths of each file type. -/
theorem create_file_extension_rules_witness :
    actual_filepath "notes" "txt" = "notes" ++ ".txt" ∧
    actual_filepath "report.md" "document" = "report.md" ∧
    actual_filepath "budget" "spreadsheet" = "budget" ++ ".csv" ∧
    strContains (create_file_success_message "budget" "spreadsheet") "budget" = true :=
  ⟨create_file_extension_rules.1 "notes" (by rfl),
   create_file_extension_rules.2.2.2.1 "report.md" (Or.inr (Or.inl (by rfl))),
   create_file_extension_rules.2.2.2.2.1 "budget" (by rfl) (by rfl),
   create_file_extension_rules.2.2.2.2.2.2 "budget" "spreadsheet" (by decide)⟩

end Jarvis
